import Mathlib

/-!
# Verification of the BLE scanner session manager

A shallow embedding of the `BluetoothManager` core of
`BLE_Scanner_Embedded.py` together with theorems settling the frozen
claims about it.

Modelling conventions:

* The mutable attributes of `BluetoothManager` become the fields of
  `BTState`.  A `BleakClient` object is modelled as a `Client` record
  carrying the address it was constructed from and a fresh numeric
  handle drawn from the `nextHandle` counter (object identity).
* Every callback invoked on the GUI (`callback_manager.on_*`) becomes a
  constructor of `Event`; each operation returns the list of events it
  emits, in program order.
* Every call into the `bleak` transport becomes a constructor of
  `TCall`; each operation also returns the list of transport calls it
  issues, in program order.  The outcome of each transport call
  (success, or the exception it raises rendered as a string) is an
  explicit oracle argument of the operation, since the transport is an
  external collaborator.
* The background threads / event loops spawned by the Python code run
  their bodies to completion in this sequential model; unbounded
  drain/poll loops are given the finite list of transport responses
  they observe before the cooperative stop flag is cleared.
* Python `bytes` values are `List Nat` (each element < 256), `str`
  values are Lean `String`s, and `data.decode("utf-8")` is modelled by
  an executable strict UTF-8 decoder `utf8Decode?` faithful to CPython
  (RFC 3629: rejects overlong forms, surrogates and code points above
  U+10FFFF).
-/

/-- A Unicode scalar value: what CPython's strict UTF-8 codec accepts as a
decoded code point (and what a Lean `Char` carries). -/
def validScalar (c : Nat) : Prop :=
  c < 0xD800 ∨ (0xDFFF < c ∧ c < 0x110000)

instance (c : Nat) : Decidable (validScalar c) := by
  unfold validScalar; infer_instance

/-- UTF-8 encoding of one scalar value (the byte sequence CPython's
`str.encode("utf-8")` produces for it). -/
def utf8EncodeChar (c : Nat) : List Nat :=
  if c < 0x80 then [c]
  else if c < 0x800 then [0xC0 + c / 64, 0x80 + c % 64]
  else if c < 0x10000 then [0xE0 + c / 4096, 0x80 + c / 64 % 64, 0x80 + c % 64]
  else [0xF0 + c / 262144, 0x80 + c / 4096 % 64, 0x80 + c / 64 % 64, 0x80 + c % 64]

/-- UTF-8 encoding of a list of scalar values (`str.encode("utf-8")`). -/
def utf8Encode : List Nat → List Nat
  | [] => []
  | c :: cs => utf8EncodeChar c ++ utf8Encode cs

/-- A UTF-8 continuation byte. -/
def utf8Cont (x : Nat) : Prop := 0x80 ≤ x ∧ x < 0xC0

instance (x : Nat) : Decidable (utf8Cont x) := by
  unfold utf8Cont; infer_instance

def utf8Pack2 (b c1 : Nat) (r : List Nat) : Option (Nat × List Nat) :=
  if utf8Cont c1 then some ((b - 0xC0) * 64 + (c1 - 0x80), r) else none

def utf8Step2 (b : Nat) : List Nat → Option (Nat × List Nat)
  | c1 :: r => utf8Pack2 b c1 r
  | [] => none

def utf8Pack3 (b c1 c2 : Nat) (r : List Nat) : Option (Nat × List Nat) :=
  if utf8Cont c1 ∧ utf8Cont c2 ∧ (b = 0xE0 → 0xA0 ≤ c1) ∧ (b = 0xED → c1 < 0xA0) then
    some ((b - 0xE0) * 4096 + (c1 - 0x80) * 64 + (c2 - 0x80), r)
  else none

def utf8Step3 (b : Nat) : List Nat → Option (Nat × List Nat)
  | c1 :: c2 :: r => utf8Pack3 b c1 c2 r
  | _ => none

def utf8Pack4 (b c1 c2 c3 : Nat) (r : List Nat) : Option (Nat × List Nat) :=
  if utf8Cont c1 ∧ utf8Cont c2 ∧ utf8Cont c3 ∧ (b = 0xF0 → 0x90 ≤ c1) ∧ (b = 0xF4 → c1 < 0x90) then
    some ((b - 0xF0) * 262144 + (c1 - 0x80) * 4096 + (c2 - 0x80) * 64 + (c3 - 0x80), r)
  else none

def utf8Step4 (b : Nat) : List Nat → Option (Nat × List Nat)
  | c1 :: c2 :: c3 :: r => utf8Pack4 b c1 c2 c3 r
  | _ => none

def utf8Step : List Nat → Option (Nat × List Nat)
  | [] => none
  | b :: rest =>
    if b < 0x80 then some (b, rest)
    else if b < 0xC2 then none
    else if b < 0xE0 then utf8Step2 b rest
    else if b < 0xF0 then utf8Step3 b rest
    else if b < 0xF5 then utf8Step4 b rest
    else none

def utf8DecodeGo : Nat → List Nat → Option (List Nat)
  | _, [] => some []
  | 0, _ :: _ => none
  | fuel + 1, b :: rest =>
    match utf8Step (b :: rest) with
    | some (c, r) => (utf8DecodeGo fuel r).map (fun cs => c :: cs)
    | none => none

def utf8Decode? (l : List Nat) : Option (List Nat) :=
  utf8DecodeGo l.length l

example : utf8Decode? [72, 105] = some [72, 105] := by decide
example : utf8Decode? [0xff, 0xfe, 0x01] = none := by decide
example : utf8Decode? [0xC3, 0xA9] = some [0xE9] := by decide
example : utf8Decode? [0xED, 0xA0, 0x80] = none := by decide
example : utf8Decode? [0xC0, 0x80] = none := by decide

theorem utf8Step2_length (b : Nat) (l : List Nat) (c : Nat) (r : List Nat)
    (h : utf8Step2 b l = some (c, r)) : r.length + 1 ≤ l.length := by
  cases l with
  | nil => exact absurd h (by simp [utf8Step2])
  | cons c1 t =>
    rw [show utf8Step2 b (c1 :: t) = utf8Pack2 b c1 t from rfl] at h
    unfold utf8Pack2 at h
    split_ifs at h
    rw [Option.some.injEq, Prod.mk.injEq] at h
    obtain ⟨h1, h2⟩ := h
    subst h2
    simp

theorem utf8Step3_length (b : Nat) (l : List Nat) (c : Nat) (r : List Nat)
    (h : utf8Step3 b l = some (c, r)) : r.length + 2 ≤ l.length := by
  cases l with
  | nil => exact absurd h (by simp [utf8Step3])
  | cons c1 t =>
    cases t with
    | nil => exact absurd h (by simp [utf8Step3])
    | cons c2 t =>
      rw [show utf8Step3 b (c1 :: c2 :: t) = utf8Pack3 b c1 c2 t from rfl] at h
      unfold utf8Pack3 at h
      split_ifs at h
      rw [Option.some.injEq, Prod.mk.injEq] at h
      obtain ⟨h1, h2⟩ := h
      subst h2
      simp

theorem utf8Step4_length (b : Nat) (l : List Nat) (c : Nat) (r : List Nat)
    (h : utf8Step4 b l = some (c, r)) : r.length + 3 ≤ l.length := by
  cases l with
  | nil => exact absurd h (by simp [utf8Step4])
  | cons c1 t =>
    cases t with
    | nil => exact absurd h (by simp [utf8Step4])
    | cons c2 t =>
      cases t with
      | nil => exact absurd h (by simp [utf8Step4])
      | cons c3 t =>
        rw [show utf8Step4 b (c1 :: c2 :: c3 :: t) = utf8Pack4 b c1 c2 c3 t from rfl] at h
        unfold utf8Pack4 at h
        split_ifs at h
        rw [Option.some.injEq, Prod.mk.injEq] at h
        obtain ⟨h1, h2⟩ := h
        subst h2
        simp

theorem utf8Step_length (l : List Nat) (c : Nat) (r : List Nat)
    (h : utf8Step l = some (c, r)) : r.length < l.length := by
  cases l with
  | nil => exact absurd h (by simp [utf8Step])
  | cons b rest =>
    rw [show utf8Step (b :: rest) =
      (if b < 0x80 then some (b, rest)
      else if b < 0xC2 then none
      else if b < 0xE0 then utf8Step2 b rest
      else if b < 0xF0 then utf8Step3 b rest
      else if b < 0xF5 then utf8Step4 b rest
      else none) from rfl] at h
    split_ifs at h
    · rw [Option.some.injEq, Prod.mk.injEq] at h
      obtain ⟨h1, h2⟩ := h
      subst h2
      simp
    · have := utf8Step2_length b rest c r h
      simp only [List.length_cons] at this ⊢
      omega
    · have := utf8Step3_length b rest c r h
      simp only [List.length_cons] at this ⊢
      omega
    · have := utf8Step4_length b rest c r h
      simp only [List.length_cons] at this ⊢
      omega

theorem utf8DecodeGo_fuel (f1 : Nat) : ∀ (f2 : Nat) (l : List Nat),
    l.length ≤ f1 → l.length ≤ f2 → utf8DecodeGo f1 l = utf8DecodeGo f2 l := by
  induction f1 with
  | zero =>
    intro f2 l h1 _
    have : l = [] := by
      cases l with
      | nil => rfl
      | cons a t => simp at h1
    subst this
    cases f2 <;> rfl
  | succ f ih =>
    intro f2 l h1 h2
    cases l with
    | nil => cases f2 <;> rfl
    | cons b rest =>
      cases f2 with
      | zero => simp at h2
      | succ g =>
        show (match utf8Step (b :: rest) with
          | some (c, r) => (utf8DecodeGo f r).map (fun cs => c :: cs)
          | none => none) =
          (match utf8Step (b :: rest) with
          | some (c, r) => (utf8DecodeGo g r).map (fun cs => c :: cs)
          | none => none)
        rcases hs : utf8Step (b :: rest) with _ | ⟨c, r⟩
        · rfl
        · have hl := utf8Step_length _ _ _ hs
          simp only []
          simp only [List.length_cons] at h1 h2 hl
          rw [ih g r (by omega) (by omega)]

theorem utf8Decode?_nil : utf8Decode? [] = some [] := rfl

theorem utf8Decode?_cons (b : Nat) (rest : List Nat) :
    utf8Decode? (b :: rest) =
      match utf8Step (b :: rest) with
      | some (c, r) => (utf8Decode? r).map (fun cs => c :: cs)
      | none => none := by
  show (match utf8Step (b :: rest) with
    | some (c, r) => (utf8DecodeGo rest.length r).map (fun cs => c :: cs)
    | none => none) = _
  rcases hs : utf8Step (b :: rest) with _ | ⟨c, r⟩
  · rfl
  · have hl := utf8Step_length _ _ _ hs
    simp only []
    simp only [List.length_cons] at hl
    rw [utf8DecodeGo_fuel rest.length r.length r (by omega) (le_refl _)]
    rfl

theorem utf8Step_cons (b : Nat) (rest : List Nat) :
    utf8Step (b :: rest) =
      (if b < 0x80 then some (b, rest)
      else if b < 0xC2 then none
      else if b < 0xE0 then utf8Step2 b rest
      else if b < 0xF0 then utf8Step3 b rest
      else if b < 0xF5 then utf8Step4 b rest
      else none) := rfl

theorem utf8Decode?_one (b : Nat) (rest : List Nat) (h : b < 0x80) :
    utf8Decode? (b :: rest) = (utf8Decode? rest).map (fun cs => b :: cs) := by
  rw [utf8Decode?_cons, utf8Step_cons, if_pos h]

theorem utf8Decode?_two (b c1 : Nat) (rest : List Nat)
    (hb1 : 0xC2 ≤ b) (hb2 : b < 0xE0) (hc : utf8Cont c1) :
    utf8Decode? (b :: c1 :: rest) =
      (utf8Decode? rest).map (fun cs => ((b - 0xC0) * 64 + (c1 - 0x80)) :: cs) := by
  rw [utf8Decode?_cons, utf8Step_cons, if_neg (by omega), if_neg (by omega), if_pos hb2]
  rw [show utf8Step2 b (c1 :: rest) = utf8Pack2 b c1 rest from rfl]
  unfold utf8Pack2
  rw [if_pos hc]

theorem utf8Decode?_three (b c1 c2 : Nat) (rest : List Nat)
    (hb1 : 0xE0 ≤ b) (hb2 : b < 0xF0) (hc : utf8Cont c1) (hd : utf8Cont c2)
    (hlo : b = 0xE0 → 0xA0 ≤ c1) (hsur : b = 0xED → c1 < 0xA0) :
    utf8Decode? (b :: c1 :: c2 :: rest) =
      (utf8Decode? rest).map
        (fun cs => ((b - 0xE0) * 4096 + (c1 - 0x80) * 64 + (c2 - 0x80)) :: cs) := by
  rw [utf8Decode?_cons, utf8Step_cons, if_neg (by omega), if_neg (by omega), if_neg (by omega),
    if_pos hb2]
  rw [show utf8Step3 b (c1 :: c2 :: rest) = utf8Pack3 b c1 c2 rest from rfl]
  unfold utf8Pack3
  rw [if_pos ⟨hc, hd, hlo, hsur⟩]

theorem utf8Decode?_four (b c1 c2 c3 : Nat) (rest : List Nat)
    (hb1 : 0xF0 ≤ b) (hb2 : b < 0xF5) (hc : utf8Cont c1) (hd : utf8Cont c2) (he : utf8Cont c3)
    (hlo : b = 0xF0 → 0x90 ≤ c1) (hhi : b = 0xF4 → c1 < 0x90) :
    utf8Decode? (b :: c1 :: c2 :: c3 :: rest) =
      (utf8Decode? rest).map
        (fun cs =>
          ((b - 0xF0) * 262144 + (c1 - 0x80) * 4096 + (c2 - 0x80) * 64 + (c3 - 0x80)) :: cs) := by
  rw [utf8Decode?_cons, utf8Step_cons, if_neg (by omega), if_neg (by omega), if_neg (by omega),
    if_neg (by omega), if_pos hb2]
  rw [show utf8Step4 b (c1 :: c2 :: c3 :: rest) = utf8Pack4 b c1 c2 c3 rest from rfl]
  unfold utf8Pack4
  rw [if_pos ⟨hc, hd, he, hlo, hhi⟩]

theorem utf8Decode?_encodeChar_append (c : Nat) (rest : List Nat) (h : validScalar c) :
    utf8Decode? (utf8EncodeChar c ++ rest) = (utf8Decode? rest).map (fun cs => c :: cs) := by
  unfold validScalar at h
  by_cases hc1 : c < 0x80
  · have e1 : utf8EncodeChar c = [c] := by unfold utf8EncodeChar; rw [if_pos hc1]
    rw [e1]
    show utf8Decode? (c :: rest) = _
    rw [utf8Decode?_one c rest hc1]
  · by_cases hc2 : c < 0x800
    · have e1 : utf8EncodeChar c = [0xC0 + c / 64, 0x80 + c % 64] := by
        unfold utf8EncodeChar; rw [if_neg hc1, if_pos hc2]
      rw [e1]
      show utf8Decode? ((0xC0 + c / 64) :: (0x80 + c % 64) :: rest) = _
      rw [utf8Decode?_two _ _ _ (by omega) (by omega) (by unfold utf8Cont; omega)]
      have harith : (0xC0 + c / 64 - 0xC0) * 64 + (0x80 + c % 64 - 0x80) = c := by omega
      rw [harith]
    · by_cases hc3 : c < 0x10000
      · have e1 : utf8EncodeChar c = [0xE0 + c / 4096, 0x80 + c / 64 % 64, 0x80 + c % 64] := by
          unfold utf8EncodeChar; rw [if_neg hc1, if_neg hc2, if_pos hc3]
        rw [e1]
        show utf8Decode?
          ((0xE0 + c / 4096) :: (0x80 + c / 64 % 64) :: (0x80 + c % 64) :: rest) = _
        rw [utf8Decode?_three _ _ _ _ (by omega) (by omega) (by unfold utf8Cont; omega)
          (by unfold utf8Cont; omega) (by omega) (by omega)]
        have harith :
            (0xE0 + c / 4096 - 0xE0) * 4096 + (0x80 + c / 64 % 64 - 0x80) * 64 +
              (0x80 + c % 64 - 0x80) = c := by omega
        rw [harith]
      · have e1 : utf8EncodeChar c =
            [0xF0 + c / 262144, 0x80 + c / 4096 % 64, 0x80 + c / 64 % 64, 0x80 + c % 64] := by
          unfold utf8EncodeChar; rw [if_neg hc1, if_neg hc2, if_neg hc3]
        rw [e1]
        show utf8Decode?
          ((0xF0 + c / 262144) :: (0x80 + c / 4096 % 64) :: (0x80 + c / 64 % 64) ::
            (0x80 + c % 64) :: rest) = _
        rw [utf8Decode?_four _ _ _ _ _ (by omega) (by omega) (by unfold utf8Cont; omega)
          (by unfold utf8Cont; omega) (by unfold utf8Cont; omega) (by omega) (by omega)]
        have harith :
            (0xF0 + c / 262144 - 0xF0) * 262144 + (0x80 + c / 4096 % 64 - 0x80) * 4096 +
              (0x80 + c / 64 % 64 - 0x80) * 64 + (0x80 + c % 64 - 0x80) = c := by omega
        rw [harith]

theorem utf8Decode?_encode (cps : List Nat) (h : ∀ c ∈ cps, validScalar c) :
    utf8Decode? (utf8Encode cps) = some cps := by
  induction cps with
  | nil => rfl
  | cons c cs ih =>
    show utf8Decode? (utf8EncodeChar c ++ utf8Encode cs) = _
    rw [utf8Decode?_encodeChar_append c _ (h c (by simp))]
    rw [ih (fun x hx => h x (by simp [hx]))]
    rfl

theorem utf8Step_sound (l : List Nat) (c : Nat) (r : List Nat)
    (h : utf8Step l = some (c, r)) : utf8EncodeChar c ++ r = l ∧ validScalar c := by
  cases l with
  | nil => exact absurd h (by simp [utf8Step])
  | cons b rest =>
    rw [utf8Step_cons] at h
    split_ifs at h with h1 h2 h3 h4 h5
    · rw [Option.some.injEq, Prod.mk.injEq] at h
      obtain ⟨hc, hr⟩ := h
      subst hc; subst hr
      constructor
      · unfold utf8EncodeChar
        rw [if_pos h1]
        rfl
      · unfold validScalar; omega
    · -- two-byte
      cases rest with
      | nil => exact absurd h (by simp [utf8Step2])
      | cons c1 t =>
        rw [show utf8Step2 b (c1 :: t) = utf8Pack2 b c1 t from rfl] at h
        unfold utf8Pack2 at h
        split_ifs at h with hcont
        unfold utf8Cont at hcont
        rw [Option.some.injEq, Prod.mk.injEq] at h
        obtain ⟨hc, hr⟩ := h
        subst hc; subst hr
        constructor
        · unfold utf8EncodeChar
          rw [if_neg (by omega), if_pos (by omega)]
          have e1 : 0xC0 + ((b - 0xC0) * 64 + (c1 - 0x80)) / 64 = b := by omega
          have e2 : 0x80 + ((b - 0xC0) * 64 + (c1 - 0x80)) % 64 = c1 := by omega
          rw [e1, e2]
          rfl
        · unfold validScalar; omega
    · -- three-byte
      cases rest with
      | nil => exact absurd h (by simp [utf8Step3])
      | cons c1 t =>
        cases t with
        | nil => exact absurd h (by simp [utf8Step3])
        | cons c2 t =>
          rw [show utf8Step3 b (c1 :: c2 :: t) = utf8Pack3 b c1 c2 t from rfl] at h
          unfold utf8Pack3 at h
          split_ifs at h with hcont
          obtain ⟨hcont1, hcont2, hlo, hsur⟩ := hcont
          unfold utf8Cont at hcont1 hcont2
          rw [Option.some.injEq, Prod.mk.injEq] at h
          obtain ⟨hc, hr⟩ := h
          subst hc; subst hr
          constructor
          · unfold utf8EncodeChar
            rw [if_neg (by omega), if_neg (by omega), if_pos (by omega)]
            have e1 : 0xE0 + ((b - 0xE0) * 4096 + (c1 - 0x80) * 64 + (c2 - 0x80)) / 4096 = b := by
              omega
            have e2 : 0x80 + ((b - 0xE0) * 4096 + (c1 - 0x80) * 64 + (c2 - 0x80)) / 64 % 64 = c1 := by
              omega
            have e3 : 0x80 + ((b - 0xE0) * 4096 + (c1 - 0x80) * 64 + (c2 - 0x80)) % 64 = c2 := by
              omega
            rw [e1, e2, e3]
            rfl
          · unfold validScalar; omega
    · -- four-byte
      cases rest with
      | nil => exact absurd h (by simp [utf8Step4])
      | cons c1 t =>
        cases t with
        | nil => exact absurd h (by simp [utf8Step4])
        | cons c2 t =>
          cases t with
          | nil => exact absurd h (by simp [utf8Step4])
          | cons c3 t =>
            rw [show utf8Step4 b (c1 :: c2 :: c3 :: t) = utf8Pack4 b c1 c2 c3 t from rfl] at h
            unfold utf8Pack4 at h
            split_ifs at h with hcont
            obtain ⟨hcont1, hcont2, hcont3, hlo, hhi⟩ := hcont
            unfold utf8Cont at hcont1 hcont2 hcont3
            rw [Option.some.injEq, Prod.mk.injEq] at h
            obtain ⟨hc, hr⟩ := h
            subst hc; subst hr
            constructor
            · unfold utf8EncodeChar
              rw [if_neg (by omega), if_neg (by omega), if_neg (by omega)]
              have e1 : 0xF0 +
                  ((b - 0xF0) * 262144 + (c1 - 0x80) * 4096 + (c2 - 0x80) * 64 + (c3 - 0x80)) /
                    262144 = b := by omega
              have e2 : 0x80 +
                  ((b - 0xF0) * 262144 + (c1 - 0x80) * 4096 + (c2 - 0x80) * 64 + (c3 - 0x80)) /
                    4096 % 64 = c1 := by omega
              have e3 : 0x80 +
                  ((b - 0xF0) * 262144 + (c1 - 0x80) * 4096 + (c2 - 0x80) * 64 + (c3 - 0x80)) /
                    64 % 64 = c2 := by omega
              have e4 : 0x80 +
                  ((b - 0xF0) * 262144 + (c1 - 0x80) * 4096 + (c2 - 0x80) * 64 + (c3 - 0x80)) %
                    64 = c3 := by omega
              rw [e1, e2, e3, e4]
              rfl
            · unfold validScalar; omega

theorem utf8Encode_decode_aux (n : Nat) : ∀ (l : List Nat), l.length ≤ n →
    ∀ cps, utf8Decode? l = some cps →
      utf8Encode cps = l ∧ ∀ c ∈ cps, validScalar c := by
  induction n with
  | zero =>
    intro l hl cps h
    have hnil : l = [] := by
      cases l with
      | nil => rfl
      | cons a t => simp at hl
    subst hnil
    rw [utf8Decode?_nil, Option.some.injEq] at h
    subst h
    exact ⟨rfl, by simp⟩
  | succ n ih =>
    intro l hl cps h
    cases l with
    | nil =>
      rw [utf8Decode?_nil, Option.some.injEq] at h
      subst h
      exact ⟨rfl, by simp⟩
    | cons b rest =>
      rw [utf8Decode?_cons] at h
      rcases hs : utf8Step (b :: rest) with _ | ⟨c, r⟩
      · rw [hs] at h
        exact absurd h (by simp)
      · rw [hs] at h
        rw [show (match some (c, r) with
          | some (c, r) => Option.map (fun cs => c :: cs) (utf8Decode? r)
          | none => none) = Option.map (fun cs => c :: cs) (utf8Decode? r) from rfl] at h
        rcases hr : utf8Decode? r with _ | cs
        · rw [hr] at h
          exact absurd h (by simp)
        · rw [hr] at h
          rw [show Option.map (fun cs => c :: cs) (some cs) = some (c :: cs) from rfl,
            Option.some.injEq] at h
          subst h
          have hlen := utf8Step_length _ _ _ hs
          simp only [List.length_cons] at hlen hl
          obtain ⟨henc, hval⟩ := ih r (by omega) cs hr
          obtain ⟨hpre, hvc⟩ := utf8Step_sound _ _ _ hs
          constructor
          · show utf8EncodeChar c ++ utf8Encode cs = b :: rest
            rw [henc, hpre]
          · intro x hx
            rcases List.mem_cons.mp hx with hx | hx
            · subst hx; exact hvc
            · exact hval x hx

theorem utf8Encode_decode (l cps : List Nat) (h : utf8Decode? l = some cps) :
    utf8Encode cps = l ∧ ∀ c ∈ cps, validScalar c :=
  utf8Encode_decode_aux l.length l (le_refl _) cps h

/-- One byte as formatted by the Python format spec `02x` (lowercase hex,
zero padded to two digits) for byte values, i.e. inputs below 256. -/
def hexDigit (n : Nat) : Char :=
  if n < 10 then Char.ofNat (48 + n) else Char.ofNat (87 + n)

/-- `f"{b:02x}"` for a byte `b < 256`. -/
def hexByte (b : Nat) : String :=
  String.mk [hexDigit (b / 16), hexDigit (b % 16)]

/-- `" ".join([f"{b:02x}" for b in data])`. -/
def hexJoin : List Nat → String
  | [] => ""
  | [b] => hexByte b
  | b :: rest => hexByte b ++ " " ++ hexJoin rest

/-- The Lean string holding the given decoded code points (the Python
`str` produced by a successful `bytes.decode("utf-8")`). -/
def codepointsStr (cps : List Nat) : String :=
  String.mk (cps.map Char.ofNat)

/-- Embedding of `format_data_message(data, message_type)`.  The wall-clock
timestamp `get_timestamp()` is passed in as the argument `ts`. -/
def format_data_message (ts : String) (data : List Nat) (messageType : String) : String :=
  match utf8Decode? data with
  | some cps => "[" ++ ts ++ "] " ++ messageType ++ ": \x27" ++ codepointsStr cps ++ "\x27\n"
  | none => "[" ++ ts ++ "] " ++ messageType ++ " (hex): " ++ hexJoin data ++ "\n"

example : utf8Decode? [72, 105] = some [72, 105] := by decide
example : utf8Decode? [0xff, 0xfe, 0x01] = none := by decide
example : utf8Decode? [0xC3, 0xA9] = some [0xE9] := by decide
example : utf8Decode? [0xED, 0xA0, 0x80] = none := by decide
example : utf8Decode? [0xC0, 0x80] = none := by decide
example : hexJoin [0xff, 0xfe, 0x01] = "ff fe 01" := by decide
example : format_data_message "12:00:00" [72, 105] "Read" = "[12:00:00] Read: \x27Hi\x27\n" := by
  decide

/-! ## Data model of `BluetoothManager` -/

/-- The value stored in `self.devices[address]` (the fourth entry, the raw
bleak device object, is summarised by the fields the program ever reads). -/
structure DeviceInfo where
  name : String
  address : String
  rssi : Int
deriving DecidableEq, Repr

/-- A BLE characteristic as the program uses it: its UUID and its
`properties` capability strings. -/
structure CharRef where
  uuid : String
  properties : List String
deriving DecidableEq, Repr

/-- A `BleakClient` object: the address it was constructed from plus a
numeric handle giving it an identity distinct from every other client
object created by the program. -/
structure Client where
  id : Nat
  address : String
deriving DecidableEq, Repr

/-- The mutable state of `BluetoothManager`.  `nextHandle` is the supply of
fresh `Client` identities (every `BleakClient(...)` constructor call takes
the current value and increments it). -/
structure BTState where
  scanning : Bool
  devices : List (String × DeviceInfo)
  client : Option Client
  connected : Bool
  selectedCharacteristic : Option CharRef
  notificationActive : Bool
  paired : Bool
  pairedDevices : List String
  nextHandle : Nat
deriving DecidableEq, Repr

/-- Python `set.add` on the list model of `self.paired_devices`. -/
def setAdd (l : List String) (a : String) : List String :=
  if a ∈ l then l else l ++ [a]

/-- Python `set.remove` / `set.discard` on the list model of
`self.paired_devices` (the tracked set never holds duplicates). -/
def setRemove (l : List String) (a : String) : List String :=
  l.filter (fun x => x != a)

/-- One GUI callback occurrence (`callback_manager.on_*`). -/
inductive Event where
  | scanStarted
  | scanStopped
  | devicesUpdated (devices : List (String × DeviceInfo))
  | connectionStarted (info : DeviceInfo)
  | connected (info : DeviceInfo)
  | connectionFailed (msg : String)
  | disconnected
  | servicesDiscovered
  | pairingStarted
  | pairedSuccessfully
  | pairingFailed (msg : String)
  | unpairingStarted
  | unpairedSuccessfully
  | unpairingFailed (msg : String)
  | sendStarted (data : String)
  | sendSuccess (data : String)
  | readStarted (uuid : String)
  | dataReceived (msg : String)
  | notificationsStarting
  | notificationsStartedReal
  | notificationsStartedPolling
  | notificationsStopped
  | message (msg : String)
  | error (msg : String)
deriving DecidableEq, Repr

/-- One call into the `bleak` transport, tagged with the handle of the
client object it is invoked on. -/
inductive TCall where
  | discover
  | connect (handle : Nat)
  | disconnect (handle : Nat)
  | pair (handle : Nat)
  | unpair (handle : Nat)
  | read (handle : Nat) (uuid : String)
  | write (handle : Nat) (uuid : String) (payload : List Nat) (response : Bool)
  | startNotify (handle : Nat) (uuid : String)
  | stopNotify (handle : Nat) (uuid : String)
deriving DecidableEq, Repr

/-- `ev` is an `on_error` report. -/
def isErrorEvent : Event → Bool
  | Event.error _ => true
  | _ => false

/-- `ev` reports the outcome of a send operation (`on_send_success` or an
`on_error`). -/
def isOutcomeEvent : Event → Bool
  | Event.sendSuccess _ => true
  | Event.error _ => true
  | _ => false

/-- The transport call is a GATT write. -/
def isWriteCall : TCall → Bool
  | TCall.write _ _ _ _ => true
  | _ => false

/-! ## Discovery engine -/

/-- `device.name or "Unknown"` (Python truthiness: `None` and the empty
string both fall back). -/
def discoveredName : Option String → String
  | none => "Unknown"
  | some s => if s = "" then "Unknown" else s

/-- Processing of one discovered device inside the scan loop body:
unknown addresses are inserted (name defaulted, RSSI defaulted to `-50`)
and `on_devices_updated` fires with the whole dictionary; already-known
addresses are skipped with no event. -/
def processDevice (s : BTState) (addr : String) (name : Option String) :
    BTState × List Event :=
  if (s.devices.lookup addr).isSome then (s, [])
  else
    let info : DeviceInfo := { name := discoveredName name, address := addr, rssi := -50 }
    let s1 := { s with devices := s.devices ++ [(addr, info)] }
    (s1, [Event.devicesUpdated s1.devices])

/-- `for device in devices: ...` over one discovery result. -/
def processDevices : BTState → List (String × Option String) → BTState × List Event
  | s, [] => (s, [])
  | s, (a, n) :: rest =>
    let r1 := processDevice s a n
    let r2 := processDevices r1.1 rest
    (r2.1, r1.2 ++ r2.2)

/-- Embedding of the `_scan_devices_simple` loop.  `schedule` lists the
outcome of each `BleakScanner.discover` call the transport would serve:
`Except.ok` carries the `(address, name)` pairs returned, `Except.error`
the exception raised.  The loop stops when the schedule is exhausted
(modelling `scanning` being cleared externally), when `scanning` is
observed false, or when a discovery raises (`on_error` once, then
`break`). -/
def scan_devices_simple : BTState → List (Except String (List (String × Option String))) →
    BTState × List Event
  | s, [] => (s, [])
  | s, out :: rest =>
    if s.scanning then
      match out with
      | Except.error e => (s, [Event.error ("Scan error: " ++ e)])
      | Except.ok ds =>
        let r1 := processDevices s ds
        let r2 := scan_devices_simple r1.1 rest
        (r2.1, r1.2 ++ r2.2)
    else (s, [])

/-- Embedding of `start_scan`: sets the flag, clears the registry, reports
`on_scan_started` and runs the background scan loop. -/
def start_scan (s : BTState)
    (schedule : List (Except String (List (String × Option String)))) :
    BTState × List Event :=
  let s1 := { s with scanning := true, devices := [] }
  let r := scan_devices_simple s1 schedule
  (r.1, Event.scanStarted :: r.2)

/-- Embedding of `stop_scan`. -/
def stop_scan (s : BTState) : BTState × List Event :=
  ({ s with scanning := false }, [Event.scanStopped])

/-! ## Connection lifecycle controller -/

/-- Embedding of `connect_to_device` followed by its background body
`_connect_simple`.  `connOut` is the outcome of `client.connect()`,
`svcOut` the outcome of reading `client.services`. -/
def connect_to_device (s : BTState) (addr : String)
    (connOut : Except String Unit) (svcOut : Except String Unit) :
    BTState × List Event × List TCall :=
  match s.devices.lookup addr with
  | none => (s, [Event.error ("Device " ++ addr ++ " not found in discovered devices")], [])
  | some info =>
    let h := s.nextHandle
    let s1 := { s with client := some { id := h, address := addr }, nextHandle := h + 1 }
    match connOut with
    | Except.error e =>
      (s1, [Event.connectionStarted info, Event.connectionFailed ("Connection failed: " ++ e)],
        [TCall.connect h])
    | Except.ok _ =>
      let s2 := { s1 with connected := true }
      match svcOut with
      | Except.ok _ =>
        (s2, [Event.connectionStarted info, Event.connected info, Event.servicesDiscovered],
          [TCall.connect h])
      | Except.error e =>
        (s2, [Event.connectionStarted info, Event.connected info,
          Event.message ("Connected - services discovery failed: " ++ e ++
            ". Services will be loaded when available.")],
          [TCall.connect h])

/-- Embedding of `disconnect_from_device` followed by its background body
`_disconnect_simple`.  `discOut` is the outcome of `client.disconnect()`.
The state fields are cleared inside the `try`, so they survive a transport
exception; the `finally` block always reports `on_disconnected`. -/
def disconnect_from_device (s : BTState) (discOut : Except String Unit) :
    BTState × List Event × List TCall :=
  match s.client with
  | none => (s, [Event.error "No device connected to disconnect from"], [])
  | some c =>
    let s1 := { s with notificationActive := false }
    match discOut with
    | Except.ok _ =>
      ({ s1 with client := none, connected := false, paired := false, selectedCharacteristic := none },
        [Event.disconnected], [TCall.disconnect c.id])
    | Except.error e =>
      (s1, [Event.error ("Disconnect error: " ++ e), Event.disconnected],
        [TCall.disconnect c.id])

/-! ## Pairing -/

/-- Embedding of `pair_device` and its async body.  `pairOut` is the
outcome of `client.pair()`.  On success the address is tracked (guarded by
Python truthiness of the address string). -/
def pair_device (s : BTState) (pairOut : Except String Unit) :
    BTState × List Event × List TCall :=
  match s.client with
  | none => (s, [Event.error "No device connected for pairing"], [])
  | some c =>
    match pairOut with
    | Except.ok _ =>
      let pd := if c.address ≠ "" then setAdd s.pairedDevices c.address else s.pairedDevices
      ({ s with paired := true, pairedDevices := pd },
        [Event.pairingStarted, Event.pairedSuccessfully], [TCall.pair c.id])
    | Except.error e =>
      (s, [Event.pairingStarted, Event.pairingFailed ("Pairing failed: " ++ e)],
        [TCall.pair c.id])

/-- Embedding of `unpair_device` and its async body.  `unpairOut` is the
outcome of `client.unpair()`. -/
def unpair_device (s : BTState) (unpairOut : Except String Unit) :
    BTState × List Event × List TCall :=
  match s.client with
  | none => (s, [Event.error "No device connected for unpairing"], [])
  | some c =>
    match unpairOut with
    | Except.ok _ =>
      let pd :=
        if c.address ∈ s.pairedDevices then setRemove s.pairedDevices c.address
        else s.pairedDevices
      ({ s with paired := false, pairedDevices := pd },
        [Event.unpairingStarted, Event.unpairedSuccessfully], [TCall.unpair c.id])
    | Except.error e =>
      (s, [Event.unpairingStarted, Event.unpairingFailed ("Unpairing failed: " ++ e)],
        [TCall.unpair c.id])

/-! ## Shutdown cleanup of paired devices -/

/-- One iteration of the `cleanup_all` loop for address `a`: connect a
temporary client, unpair, disconnect; on full success the address is
discarded from the tracked set (returning success count 1), on any
exception the failure message is reported and the set is untouched. -/
def cleanupDevice (s : BTState) (a : String)
    (cOut uOut dOut : String → Except String Unit) :
    BTState × Nat × List Event × List TCall :=
  let h := s.nextHandle
  let s1 := { s with nextHandle := h + 1 }
  match cOut a with
  | Except.error e =>
    (s1, 0, [Event.message ("Failed to unpair " ++ a ++ ": " ++ e)], [TCall.connect h])
  | Except.ok _ =>
    match uOut a with
    | Except.error e =>
      (s1, 0, [Event.message ("Failed to unpair " ++ a ++ ": " ++ e)],
        [TCall.connect h, TCall.unpair h])
    | Except.ok _ =>
      match dOut a with
      | Except.error e =>
        (s1, 0, [Event.message ("Failed to unpair " ++ a ++ ": " ++ e)],
          [TCall.connect h, TCall.unpair h, TCall.disconnect h])
      | Except.ok _ =>
        ({ s1 with pairedDevices := setRemove s1.pairedDevices a }, 1,
          [Event.message ("Unpaired device: " ++ a)],
          [TCall.connect h, TCall.unpair h, TCall.disconnect h])

/-- The `for device_address in devices_to_unpair` sweep, accumulating the
success counter. -/
def cleanupSweep : BTState → List String → (String → Except String Unit) →
    (String → Except String Unit) → (String → Except String Unit) →
    BTState × Nat × List Event × List TCall
  | s, [], _, _, _ => (s, 0, [], [])
  | s, a :: rest, cOut, uOut, dOut =>
    let r1 := cleanupDevice s a cOut uOut dOut
    let r2 := cleanupSweep r1.1 rest cOut uOut dOut
    (r2.1, r1.2.1 + r2.2.1, r1.2.2.1 ++ r2.2.2.1, r1.2.2.2 ++ r2.2.2.2)

/-- Embedding of `cleanup_all_paired_devices` and its async body: the
header count message, the per-device sweep over a snapshot of the tracked
set, then the aggregate summary chosen from the success counter. -/
def cleanup_all_paired_devices (s : BTState)
    (cOut uOut dOut : String → Except String Unit) :
    BTState × List Event × List TCall :=
  if s.pairedDevices = [] then (s, [Event.message "No devices to unpair"], [])
  else
    let n := s.pairedDevices.length
    let r := cleanupSweep s s.pairedDevices cOut uOut dOut
    let summary :=
      if r.2.1 = n then Event.message "All devices unpaired successfully"
      else if 0 < r.2.1 then
        Event.message ("Unpaired " ++ toString r.2.1 ++ "/" ++ toString n ++ " devices")
      else Event.message "No devices could be unpaired"
    (r.1, Event.message ("Unpairing " ++ toString n ++ " device(s)...") :: r.2.2.1 ++ [summary],
      r.2.2.2)

/-- Embedding of `cleanup` (shutdown): clears the cooperative flags, then
runs the paired-device sweep only when something is tracked.  No
`on_scan_stopped` is ever reported on this path. -/
def cleanup (s : BTState) (cOut uOut dOut : String → Except String Unit) :
    BTState × List Event × List TCall :=
  let s1 := { s with scanning := false, notificationActive := false }
  if s1.pairedDevices = [] then (s1, [], [])
  else cleanup_all_paired_devices s1 cOut uOut dOut

/-! ## Characteristic I/O gateway -/

/-- `data_str.encode("utf-8")` for a Lean string. -/
def utf8EncodeStr (t : String) : List Nat :=
  utf8Encode (t.data.map Char.toNat)

/-- Embedding of `send_data` and its background body.  `wOut` is the
outcome of `client.write_gatt_char`.  The write mode is chosen from the
characteristic's capability strings. -/
def send_data (s : BTState) (ch : Option CharRef) (dataStr : String)
    (wOut : Except String Unit) : BTState × List Event × List TCall :=
  match ch with
  | none => (s, [Event.error "No characteristic selected for sending data"], [])
  | some c =>
    match s.client with
    | none => (s, [Event.error "No device connected for sending data"], [])
    | some cl =>
      if s.connected then
        let payload := utf8EncodeStr dataStr
        let call :=
          if "write-without-response" ∈ c.properties then
            TCall.write cl.id c.uuid payload false
          else
            TCall.write cl.id c.uuid payload true
        match wOut with
        | Except.ok _ =>
          (s, [Event.sendStarted dataStr, Event.sendSuccess dataStr], [call])
        | Except.error e =>
          (s, [Event.sendStarted dataStr, Event.error ("Send failed: " ++ e)], [call])
      else (s, [Event.error "No device connected for sending data"], [])

/-- Embedding of `read_data` and its background body.  `rOut` is the
outcome of `client.read_gatt_char` (the bytes read, or the exception). -/
def read_data (s : BTState) (ch : Option CharRef) (ts : String)
    (rOut : Except String (List Nat)) : BTState × List Event × List TCall :=
  match ch with
  | none => (s, [Event.error "No characteristic selected for reading data"], [])
  | some c =>
    match s.client with
    | none => (s, [Event.error "No device connected for reading data"], [])
    | some cl =>
      if s.connected then
        match rOut with
        | Except.ok d =>
          (s, [Event.readStarted c.uuid,
            Event.dataReceived (format_data_message ts d "Read")], [TCall.read cl.id c.uuid])
        | Except.error e =>
          (s, [Event.readStarted c.uuid, Event.error ("Read failed: " ++ e)],
            [TCall.read cl.id c.uuid])
      else (s, [Event.error "No device connected for reading data"], [])

/-! ## Notification / polling engine -/

/-- The synthetic status line `_start_polling_fallback` injects into the
received-data stream (`POLLING_INTERVAL` is 0.5 seconds). -/
def pollingStartedMsg (ts : String) : String :=
  "[" ++ ts ++ "] Polling started - checking for data every 0.5s...\n"

/-- How one polling-loop read is delivered: a successful
`read_gatt_char` is formatted as a `Polled` line, a read failure is
swallowed silently. -/
def pollRender (ts : String) : Except String (List Nat) → Option Event
  | Except.ok d => some (Event.dataReceived (format_data_message ts d "Polled"))
  | Except.error _ => none

/-- Embedding of `_start_polling_fallback`: reports
`on_notifications_started_polling`, delivers the synthetic status line as
received data, then the polling thread performs one read per entry of
`polls` until the cooperative flags stop it. -/
def start_polling_fallback (s : BTState) (c : CharRef) (ts : String)
    (polls : List (Except String (List Nat))) : BTState × List Event × List TCall :=
  let pollCalls :=
    match s.client with
    | some cl => polls.map (fun _ => TCall.read cl.id c.uuid)
    | none => []
  (s,
    Event.notificationsStartedPolling ::
      Event.dataReceived (pollingStartedMsg ts) :: polls.filterMap (pollRender ts),
    pollCalls)

/-- Embedding of `start_notifications` and its background body.  `subOut`
is the outcome of `client.start_notify`.  On success the queue-drain loop
delivers each payload of `incoming` as a `Notification` line (FIFO) until
the cooperative flags stop it, then best-effort `stop_notify`; on failure
the engine reports an informational message and falls back to polling. -/
def start_notifications (s : BTState) (ch : Option CharRef) (ts : String)
    (subOut : Except String Unit) (incoming : List (List Nat))
    (polls : List (Except String (List Nat))) : BTState × List Event × List TCall :=
  match ch with
  | none => (s, [Event.error "No characteristic selected for notifications"], [])
  | some c =>
    match s.client with
    | none => (s, [Event.error "No device connected for notifications"], [])
    | some cl =>
      if s.connected then
        let s1 := { s with selectedCharacteristic := some c, notificationActive := true }
        match subOut with
        | Except.ok _ =>
          (s1,
            Event.notificationsStarting :: Event.notificationsStartedReal ::
              incoming.map (fun d => Event.dataReceived (format_data_message ts d "Notification")),
            [TCall.startNotify cl.id c.uuid, TCall.stopNotify cl.id c.uuid])
        | Except.error e =>
          let r := start_polling_fallback s1 c ts polls
          (r.1,
            Event.notificationsStarting ::
              Event.message ("Notifications failed, falling back to polling: " ++ e) :: r.2.1,
            TCall.startNotify cl.id c.uuid :: r.2.2)
      else (s, [Event.error "No device connected for notifications"], [])

/-- Embedding of `stop_notifications`. -/
def stop_notifications (s : BTState) : BTState × List Event :=
  ({ s with notificationActive := false }, [Event.notificationsStopped])

/-- The abstract mode of the notification engine as the specification
names it. -/
inductive EngineMode where
  | Idle
  | Subscribing
  | RealNotify
  | Polling
deriving DecidableEq, Repr

/-- The engine mode announced by a notification-lifecycle event (the GUI
shows exactly these transitions on its status label): `Subscribing` on
`on_notifications_starting`, `RealNotify` on
`on_notifications_started_real`, `Polling` on
`on_notifications_started_polling`, `Idle` on `on_notifications_stopped`. -/
def eventMode : Event → Option EngineMode
  | Event.notificationsStarting => some EngineMode.Subscribing
  | Event.notificationsStartedReal => some EngineMode.RealNotify
  | Event.notificationsStartedPolling => some EngineMode.Polling
  | Event.notificationsStopped => some EngineMode.Idle
  | _ => none

/-- The sequence of engine modes visited during an operation that emits
`evs`, starting from `Idle`. -/
def modeTrace (evs : List Event) : List EngineMode :=
  EngineMode.Idle :: evs.filterMap eventMode

/-! ## Sample states used by witnesses and counterexamples -/

/-- A discovered device used in concrete scenarios. -/
def devA : DeviceInfo := { name := "Alpha", address := "AA:BB:CC:DD:EE:01", rssi := -50 }

/-- A second discovered device. -/
def devB : DeviceInfo := { name := "Beta", address := "AA:BB:CC:DD:EE:02", rssi := -50 }

/-- A state with an established, paired connection to `devA` and both
devices in the registry. -/
def stConn : BTState :=
  { scanning := false,
    devices := [("AA:BB:CC:DD:EE:01", devA), ("AA:BB:CC:DD:EE:02", devB)],
    client := some { id := 0, address := "AA:BB:CC:DD:EE:01" },
    connected := true,
    selectedCharacteristic := none,
    notificationActive := true,
    paired := true,
    pairedDevices := ["AA:BB:CC:DD:EE:01"],
    nextHandle := 1 }

/-- A disconnected state with `devA` in the registry. -/
def stDisc : BTState :=
  { scanning := false,
    devices := [("AA:BB:CC:DD:EE:01", devA)],
    client := none,
    connected := false,
    selectedCharacteristic := none,
    notificationActive := false,
    paired := false,
    pairedDevices := [],
    nextHandle := 0 }

/-! ## C7: first-seen wins in the device registry -/

/-- C7: an address already present in the registry is ignored on a later
sighting — the state (hence the stored entry, whatever the new name is)
is unchanged and no registry-changed event is emitted. -/
theorem C7_duplicate_sighting_ignored (s : BTState) (a : String) (info : DeviceInfo)
    (n2 : Option String) (h : s.devices.lookup a = some info) :
    processDevice s a n2 = (s, []) ∧
    (processDevice s a n2).1.devices.lookup a = some info := by
  unfold processDevice
  rw [h]
  simp [h]

/-- Witness for C7 at a concrete registry: re-hearing `devA`'s address
with the different name `Beta2` changes nothing and keeps the first name. -/
theorem C7_witness :
    stConn.devices.lookup "AA:BB:CC:DD:EE:01" = some devA ∧
    (processDevice stConn "AA:BB:CC:DD:EE:01" (some "Beta2") = (stConn, []) ∧
      (processDevice stConn "AA:BB:CC:DD:EE:01" (some "Beta2")).1.devices.lookup
        "AA:BB:CC:DD:EE:01" = some devA) :=
  ⟨by decide, C7_duplicate_sighting_ignored stConn "AA:BB:CC:DD:EE:01" devA (some "Beta2")
    (by decide)⟩

/-! ## C6: pair/unpair round trip -/

theorem mem_setAdd_self (l : List String) (a : String) : a ∈ setAdd l a := by
  unfold setAdd
  split_ifs with h
  · exact h
  · simp

theorem not_mem_setRemove_self (l : List String) (a : String) : a ∉ setRemove l a := by
  unfold setRemove
  simp [List.mem_filter]

theorem setRemove_not_mem (l : List String) (a : String) (h : a ∉ l) : setRemove l a = l := by
  unfold setRemove
  rw [List.filter_eq_self]
  intro x hx
  rw [bne_iff_ne]
  intro he
  exact h (he ▸ hx)

theorem setRemove_setAdd_self (l : List String) (a : String) (h : a ∉ l) :
    setRemove (setAdd l a) a = l := by
  unfold setAdd
  rw [if_neg h]
  show (l ++ [a]).filter (fun x => x != a) = l
  rw [List.filter_append]
  have h1 : [a].filter (fun x => x != a) = [] := by simp
  rw [h1, List.append_nil]
  exact setRemove_not_mem l a h

/-- C6: on a connected session at address `a`, a successful `pair()`
followed by a successful `unpair()` leaves the pairing registry without
`a` and the paired flag false; if `a` was untracked before, the registry
returns to exactly its pre-pair value. -/
theorem C6_pair_unpair_roundtrip (s : BTState) (c : Client) (hc : s.client = some c)
    (hconn : s.connected = true) :
    (unpair_device (pair_device s (Except.ok ())).1 (Except.ok ())).1.paired = false ∧
    c.address ∉ (unpair_device (pair_device s (Except.ok ())).1 (Except.ok ())).1.pairedDevices ∧
    (c.address ∉ s.pairedDevices →
      (unpair_device (pair_device s (Except.ok ())).1 (Except.ok ())).1.pairedDevices =
        s.pairedDevices) := by
  have hpair : (pair_device s (Except.ok ())).1 =
      { s with paired := true, pairedDevices := if c.address ≠ "" then setAdd s.pairedDevices c.address else s.pairedDevices } := by
    simp [pair_device, hc]
  have hcl2 : (pair_device s (Except.ok ())).1.client = some c := by
    rw [hpair]
    exact hc
  have hun : (unpair_device (pair_device s (Except.ok ())).1 (Except.ok ())).1 =
      { (pair_device s (Except.ok ())).1 with paired := false, pairedDevices := if c.address ∈ (pair_device s (Except.ok ())).1.pairedDevices then setRemove (pair_device s (Except.ok ())).1.pairedDevices c.address else (pair_device s (Except.ok ())).1.pairedDevices } := by
    simp [unpair_device, hcl2]
  rw [hun, hpair]
  refine ⟨rfl, ?_, ?_⟩
  · show c.address ∉
      (if c.address ∈ (if c.address ≠ "" then setAdd s.pairedDevices c.address
          else s.pairedDevices) then
        setRemove (if c.address ≠ "" then setAdd s.pairedDevices c.address
          else s.pairedDevices) c.address
      else (if c.address ≠ "" then setAdd s.pairedDevices c.address else s.pairedDevices))
    split_ifs <;> first | exact not_mem_setRemove_self _ _ | assumption
  · intro hnm
    show (if c.address ∈ (if c.address ≠ "" then setAdd s.pairedDevices c.address
          else s.pairedDevices) then
        setRemove (if c.address ≠ "" then setAdd s.pairedDevices c.address
          else s.pairedDevices) c.address
      else (if c.address ≠ "" then setAdd s.pairedDevices c.address else s.pairedDevices)) =
      s.pairedDevices
    by_cases hemp : c.address = ""
    · have hpd1 : (if c.address ≠ "" then setAdd s.pairedDevices c.address
          else s.pairedDevices) = s.pairedDevices := by
        rw [if_neg (by simp [hemp])]
      rw [hpd1, if_neg hnm]
    · have hpd1 : (if c.address ≠ "" then setAdd s.pairedDevices c.address
          else s.pairedDevices) = setAdd s.pairedDevices c.address := if_pos hemp
      rw [hpd1, if_pos (mem_setAdd_self _ _)]
      exact setRemove_setAdd_self _ _ hnm

/-- Witness for C6 at the concrete connected state. -/
theorem C6_witness :
    stConn.client = some { id := 0, address := "AA:BB:CC:DD:EE:01" } ∧
    stConn.connected = true ∧
    ((unpair_device (pair_device stConn (Except.ok ())).1 (Except.ok ())).1.paired = false ∧
      "AA:BB:CC:DD:EE:01" ∉
        (unpair_device (pair_device stConn (Except.ok ())).1 (Except.ok ())).1.pairedDevices ∧
      ("AA:BB:CC:DD:EE:01" ∉ stConn.pairedDevices →
        (unpair_device (pair_device stConn (Except.ok ())).1 (Except.ok ())).1.pairedDevices =
          stConn.pairedDevices)) :=
  ⟨rfl, rfl, C6_pair_unpair_roundtrip stConn { id := 0, address := "AA:BB:CC:DD:EE:01" } rfl rfl⟩

/-! ## C1: disconnect totality -/

/-- C1 counterexample: with a live session, a transport `disconnect()`
that raises still emits exactly one disconnected event, but the session
is NOT cleared — the client handle survives, refuting the claim that the
session is cleared for every outcome. -/
theorem C1_counterexample :
    (disconnect_from_device stConn (Except.error "Device is not responding")).2.1.count
      Event.disconnected = 1 ∧
    ¬ ((disconnect_from_device stConn (Except.error "Device is not responding")).1.client = none ∧
      (disconnect_from_device stConn (Except.error "Device is not responding")).1.connected =
        false ∧
      (disconnect_from_device stConn (Except.error "Device is not responding")).1.paired =
        false) := by
  decide

/-- C1 amended: for every `disconnect()` call made while a session exists,
whatever the outcome of the transport disconnect, exactly one
disconnected event is emitted and notifications are deactivated; the
session fields are cleared only when the transport call succeeds, while
on a transport exception they are left unchanged and an error is also
reported. -/
theorem C1_amended (s : BTState) (c : Client) (hc : s.client = some c)
    (out : Except String Unit) :
    (disconnect_from_device s out).2.1.count Event.disconnected = 1 ∧
    (disconnect_from_device s out).1.notificationActive = false ∧
    (out = Except.ok () →
      (disconnect_from_device s out).1.client = none ∧
      (disconnect_from_device s out).1.connected = false ∧
      (disconnect_from_device s out).1.paired = false ∧
      (disconnect_from_device s out).1.selectedCharacteristic = none) ∧
    (∀ e, out = Except.error e →
      (disconnect_from_device s out).1.client = s.client ∧
      (disconnect_from_device s out).1.connected = s.connected ∧
      (disconnect_from_device s out).1.paired = s.paired ∧
      (disconnect_from_device s out).1.selectedCharacteristic = s.selectedCharacteristic ∧
      Event.error ("Disconnect error: " ++ e) ∈ (disconnect_from_device s out).2.1) := by
  cases out with
  | ok u =>
    cases u
    refine ⟨?_, ?_, ?_, ?_⟩ <;> simp [disconnect_from_device, hc]
  | error e =>
    refine ⟨?_, ?_, ?_, ?_⟩ <;> simp [disconnect_from_device, hc, List.count_cons]

/-- Witness for the amended C1 at a concrete connected state with a
successful transport disconnect. -/
theorem C1_witness :
    stConn.client = some { id := 0, address := "AA:BB:CC:DD:EE:01" } ∧
    ((disconnect_from_device stConn (Except.ok ())).2.1.count Event.disconnected = 1 ∧
      (disconnect_from_device stConn (Except.ok ())).1.notificationActive = false ∧
      ((Except.ok () : Except String Unit) = Except.ok () →
        (disconnect_from_device stConn (Except.ok ())).1.client = none ∧
        (disconnect_from_device stConn (Except.ok ())).1.connected = false ∧
        (disconnect_from_device stConn (Except.ok ())).1.paired = false ∧
        (disconnect_from_device stConn (Except.ok ())).1.selectedCharacteristic = none) ∧
      (∀ e, (Except.ok () : Except String Unit) = Except.error e →
        (disconnect_from_device stConn (Except.ok ())).1.client = stConn.client ∧
        (disconnect_from_device stConn (Except.ok ())).1.connected = stConn.connected ∧
        (disconnect_from_device stConn (Except.ok ())).1.paired = stConn.paired ∧
        (disconnect_from_device stConn (Except.ok ())).1.selectedCharacteristic =
          stConn.selectedCharacteristic ∧
        Event.error ("Disconnect error: " ++ e) ∈
          (disconnect_from_device stConn (Except.ok ())).2.1)) :=
  ⟨rfl, C1_amended stConn { id := 0, address := "AA:BB:CC:DD:EE:01" } rfl (Except.ok ())⟩

/-! ## C4: connect failure reverts to Disconnected -/

/-- C4 counterexample: a failed transport connect is reported as a
connection-failed event and leaves `connected` false, yet the observable
client handle differs from its pre-call value (the fresh `BleakClient`
assigned before the failed `connect()` survives), refuting the claim
that the observable state equals the state before the call. -/
theorem C4_counterexample :
    (connect_to_device stDisc "AA:BB:CC:DD:EE:01" (Except.error "timeout")
        (Except.ok ())).2.1 =
      [Event.connectionStarted devA, Event.connectionFailed "Connection failed: timeout"] ∧
    ¬ ((connect_to_device stDisc "AA:BB:CC:DD:EE:01" (Except.error "timeout")
        (Except.ok ())).1.client = stDisc.client) := by
  decide

/-- C4 amended: a failed transport connect is reported as exactly one
connection-failed event (after the connection-started report), the
connected flag and the registry are unchanged, but the controller does
not fully revert: the client field keeps the fresh, never-connected
handle created before the connect attempt instead of returning to its
pre-call value. -/
theorem C4_amended (s : BTState) (addr : String) (info : DeviceInfo) (e : String)
    (svcOut : Except String Unit) (h : s.devices.lookup addr = some info) :
    (connect_to_device s addr (Except.error e) svcOut).2.1 =
      [Event.connectionStarted info, Event.connectionFailed ("Connection failed: " ++ e)] ∧
    (connect_to_device s addr (Except.error e) svcOut).1.connected = s.connected ∧
    (connect_to_device s addr (Except.error e) svcOut).1.devices = s.devices ∧
    (connect_to_device s addr (Except.error e) svcOut).1.paired = s.paired ∧
    (connect_to_device s addr (Except.error e) svcOut).1.client =
      some { id := s.nextHandle, address := addr } := by
  refine ⟨?_, ?_, ?_, ?_, ?_⟩ <;> simp [connect_to_device, h]

/-- Witness for the amended C4 at the concrete disconnected state. -/
theorem C4_witness :
    stDisc.devices.lookup "AA:BB:CC:DD:EE:01" = some devA ∧
    ((connect_to_device stDisc "AA:BB:CC:DD:EE:01" (Except.error "timeout")
        (Except.ok ())).2.1 =
      [Event.connectionStarted devA, Event.connectionFailed "Connection failed: timeout"] ∧
    (connect_to_device stDisc "AA:BB:CC:DD:EE:01" (Except.error "timeout")
        (Except.ok ())).1.connected = stDisc.connected ∧
    (connect_to_device stDisc "AA:BB:CC:DD:EE:01" (Except.error "timeout")
        (Except.ok ())).1.devices = stDisc.devices ∧
    (connect_to_device stDisc "AA:BB:CC:DD:EE:01" (Except.error "timeout")
        (Except.ok ())).1.paired = stDisc.paired ∧
    (connect_to_device stDisc "AA:BB:CC:DD:EE:01" (Except.error "timeout")
        (Except.ok ())).1.client = some { id := stDisc.nextHandle, address := "AA:BB:CC:DD:EE:01" }) :=
  ⟨by decide, C4_amended stDisc "AA:BB:CC:DD:EE:01" devA "timeout" (Except.ok ()) (by decide)⟩

/-! ## C3: single-session invariant under a second connect -/

/-- C3 counterexample: a second `connect()` issued while `stConn` is
already connected is neither rejected (no error event) nor redirected
onto the existing session: the stored client handle changes, and no
transport disconnect is ever issued for the abandoned old handle 0. -/
theorem C3_counterexample :
    (connect_to_device stConn "AA:BB:CC:DD:EE:02" (Except.ok ()) (Except.ok ())).2.1.countP
      isErrorEvent = 0 ∧
    ¬ ((connect_to_device stConn "AA:BB:CC:DD:EE:02" (Except.ok ())
        (Except.ok ())).1.client = stConn.client) ∧
    TCall.disconnect 0 ∉
      (connect_to_device stConn "AA:BB:CC:DD:EE:02" (Except.ok ()) (Except.ok ())).2.2 := by
  decide

/-- C3 amended: the single `client` field means at most one session is
referenced at any time, but a second `connect(address)` while a session
is connected is neither rejected nor redirected: it stores a fresh
transport handle over the old one, and the abandoned handle receives no
transport disconnect during the call. -/
theorem C3_amended (s : BTState) (c : Client) (addr : String) (info : DeviceInfo)
    (co so : Except String Unit) (hc : s.client = some c) (hconn : s.connected = true)
    (hdev : s.devices.lookup addr = some info) (hfresh : c.id < s.nextHandle) :
    (connect_to_device s addr co so).1.client = some { id := s.nextHandle, address := addr } ∧
    (connect_to_device s addr co so).1.client ≠ some c ∧
    (∀ h, TCall.disconnect h ∉ (connect_to_device s addr co so).2.2) := by
  have h1 : (connect_to_device s addr co so).1.client =
      some { id := s.nextHandle, address := addr } := by
    cases co with
    | ok u => cases so <;> simp [connect_to_device, hdev]
    | error e => simp [connect_to_device, hdev]
  refine ⟨h1, ?_, ?_⟩
  · rw [h1]
    intro hcon
    rw [Option.some.injEq] at hcon
    have := congrArg Client.id hcon
    simp only at this
    omega
  · intro hdl
    cases co with
    | ok u => cases so <;> simp [connect_to_device, hdev]
    | error e => simp [connect_to_device, hdev]

/-- Witness for the amended C3 at the concrete connected state. -/
theorem C3_witness :
    stConn.client = some { id := 0, address := "AA:BB:CC:DD:EE:01" } ∧
    stConn.connected = true ∧
    stConn.devices.lookup "AA:BB:CC:DD:EE:02" = some devB ∧
    (0 : Nat) < stConn.nextHandle ∧
    ((connect_to_device stConn "AA:BB:CC:DD:EE:02" (Except.ok ()) (Except.ok ())).1.client =
      some { id := stConn.nextHandle, address := "AA:BB:CC:DD:EE:02" } ∧
    (connect_to_device stConn "AA:BB:CC:DD:EE:02" (Except.ok ()) (Except.ok ())).1.client ≠
      some { id := 0, address := "AA:BB:CC:DD:EE:01" } ∧
    (∀ h, TCall.disconnect h ∉
      (connect_to_device stConn "AA:BB:CC:DD:EE:02" (Except.ok ()) (Except.ok ())).2.2)) :=
  ⟨rfl, rfl, by decide, by decide,
    C3_amended stConn { id := 0, address := "AA:BB:CC:DD:EE:01" } "AA:BB:CC:DD:EE:02" devB
      (Except.ok ()) (Except.ok ()) rfl rfl (by decide) (by decide)⟩

/-! ## C9: send_data write-mode selection -/

theorem validScalar_char (c : Char) : validScalar c.toNat := by
  have h := c.valid
  simp only [UInt32.isValidChar, Nat.isValidChar, Char.toNat] at h
  unfold validScalar
  exact h

/-- The UTF-8 payload of a Lean string decodes back to exactly its code
points (so `utf8EncodeStr` really is UTF-8 encoding). -/
theorem utf8EncodeStr_decodes (t : String) :
    utf8Decode? (utf8EncodeStr t) = some (t.data.map Char.toNat) := by
  unfold utf8EncodeStr
  apply utf8Decode?_encode
  intro x hx
  rcases List.mem_map.mp hx with ⟨ch, _, hc⟩
  exact hc ▸ validScalar_char ch

/-- C9: with a connected session and a selected characteristic, `send_data`
issues exactly one transport write carrying the UTF-8 encoding of the
text (which decodes back to the text's code points), without response
exactly when the characteristic advertises `write-without-response`;
exactly one success-or-failure outcome is reported, and no call of
`send_data` ever issues more than one write. -/
theorem C9_send_data (s : BTState) (c : CharRef) (cl : Client) (t : String)
    (wOut : Except String Unit) (hc : s.client = some cl) (hconn : s.connected = true) :
    (send_data s (some c) t wOut).2.2 =
      [TCall.write cl.id c.uuid (utf8EncodeStr t)
        (if "write-without-response" ∈ c.properties then false else true)] ∧
    utf8Decode? (utf8EncodeStr t) = some (t.data.map Char.toNat) ∧
    (send_data s (some c) t wOut).2.1.countP isOutcomeEvent = 1 ∧
    (wOut = Except.ok () →
      (send_data s (some c) t wOut).2.1 = [Event.sendStarted t, Event.sendSuccess t]) ∧
    (∀ e, wOut = Except.error e →
      (send_data s (some c) t wOut).2.1 =
        [Event.sendStarted t, Event.error ("Send failed: " ++ e)]) ∧
    (∀ (s' : BTState) (ch : Option CharRef) (u : String) (w : Except String Unit),
      (send_data s' ch u w).2.2.countP isWriteCall ≤ 1) := by
  have hgen : ∀ (s' : BTState) (ch : Option CharRef) (u : String) (w : Except String Unit),
      (send_data s' ch u w).2.2.countP isWriteCall ≤ 1 := by
    intro s' ch u w
    calc (send_data s' ch u w).2.2.countP isWriteCall
        ≤ (send_data s' ch u w).2.2.length := List.countP_le_length _
      _ ≤ 1 := by
        unfold send_data
        cases ch with
        | none => simp
        | some c' =>
          cases s'.client with
          | none => simp
          | some cl' =>
            by_cases hcn : s'.connected <;> cases w <;> simp [hcn]
  refine ⟨?_, utf8EncodeStr_decodes t, ?_, ?_, ?_, hgen⟩
  · by_cases hP : "write-without-response" ∈ c.properties <;>
      cases wOut <;> simp [send_data, hc, hconn, hP]
  · cases wOut <;> simp [send_data, hc, hconn, List.countP_cons, isOutcomeEvent]
  · intro hw
    subst hw
    simp [send_data, hc, hconn]
  · intro e hw
    subst hw
    simp [send_data, hc, hconn]

/-- Witness for C9 at a concrete connected state and characteristic. -/
theorem C9_witness :
    stConn.client = some { id := 0, address := "AA:BB:CC:DD:EE:01" } ∧
    stConn.connected = true ∧
    ((send_data stConn (some { uuid := "ffe1", properties := ["write-without-response"] }) "hi"
        (Except.ok ())).2.2 =
      [TCall.write 0 "ffe1" (utf8EncodeStr "hi")
        (if "write-without-response" ∈
            ({ uuid := "ffe1", properties := ["write-without-response"] } : CharRef).properties
          then false else true)] ∧
    utf8Decode? (utf8EncodeStr "hi") = some ("hi".data.map Char.toNat) ∧
    (send_data stConn (some { uuid := "ffe1", properties := ["write-without-response"] }) "hi"
        (Except.ok ())).2.1.countP isOutcomeEvent = 1 ∧
    ((Except.ok () : Except String Unit) = Except.ok () →
      (send_data stConn (some { uuid := "ffe1", properties := ["write-without-response"] }) "hi"
        (Except.ok ())).2.1 = [Event.sendStarted "hi", Event.sendSuccess "hi"]) ∧
    (∀ e, (Except.ok () : Except String Unit) = Except.error e →
      (send_data stConn (some { uuid := "ffe1", properties := ["write-without-response"] }) "hi"
        (Except.ok ())).2.1 = [Event.sendStarted "hi", Event.error ("Send failed: " ++ e)]) ∧
    (∀ (s' : BTState) (ch : Option CharRef) (u : String) (w : Except String Unit),
      (send_data s' ch u w).2.2.countP isWriteCall ≤ 1)) :=
  ⟨rfl, rfl, C9_send_data stConn { uuid := "ffe1", properties := ["write-without-response"] }
    { id := 0, address := "AA:BB:CC:DD:EE:01" } "hi" (Except.ok ()) rfl rfl⟩

/-! ## C10: discovery failure leaves the scanning flag set -/

theorem processDevice_scanning (s : BTState) (a : String) (n : Option String) :
    (processDevice s a n).1.scanning = s.scanning := by
  unfold processDevice
  split <;> rfl

theorem processDevice_events (s : BTState) (a : String) (n : Option String) :
    ∀ ev ∈ (processDevice s a n).2, ∃ d, ev = Event.devicesUpdated d := by
  unfold processDevice
  split
  · simp
  · intro ev hev
    simp at hev
    exact ⟨_, hev⟩

theorem processDevices_scanning (ds : List (String × Option String)) : ∀ (s : BTState),
    (processDevices s ds).1.scanning = s.scanning := by
  induction ds with
  | nil => intro s; rfl
  | cons d rest ih =>
    intro s
    show (processDevices (processDevice s d.1 d.2).1 rest).1.scanning = s.scanning
    rw [ih, processDevice_scanning]

theorem processDevices_events (ds : List (String × Option String)) : ∀ (s : BTState),
    ∀ ev ∈ (processDevices s ds).2, ∃ d, ev = Event.devicesUpdated d := by
  induction ds with
  | nil => intro s ev hev; simp [processDevices] at hev
  | cons d rest ih =>
    intro s ev hev
    show ∃ x, ev = Event.devicesUpdated x
    have : (processDevices s (d :: rest)).2 =
        (processDevice s d.1 d.2).2 ++ (processDevices (processDevice s d.1 d.2).1 rest).2 := rfl
    rw [this] at hev
    rcases List.mem_append.mp hev with h | h
    · exact processDevice_events s d.1 d.2 ev h
    · exact ih _ ev h

theorem scan_devices_simple_scanning
    (sched : List (Except String (List (String × Option String)))) : ∀ (s : BTState),
    (scan_devices_simple s sched).1.scanning = s.scanning := by
  induction sched with
  | nil => intro s; rfl
  | cons out rest ih =>
    intro s
    unfold scan_devices_simple
    by_cases hs : s.scanning
    · rw [if_pos hs]
      cases out with
      | error e => rfl
      | ok ds =>
        show (scan_devices_simple (processDevices s ds).1 rest).1.scanning = s.scanning
        rw [ih, processDevices_scanning]
    · rw [if_neg hs]

theorem scan_error_event_shape (e : String)
    (rest : List (Except String (List (String × Option String))))
    (good : List (List (String × Option String))) : ∀ (s : BTState), s.scanning = true →
    ∃ evs, (scan_devices_simple s (good.map Except.ok ++ Except.error e :: rest)).2 =
      evs ++ [Event.error ("Scan error: " ++ e)] ∧
      ∀ ev ∈ evs, ∃ d, ev = Event.devicesUpdated d := by
  induction good with
  | nil =>
    intro s hs
    refine ⟨[], ?_, by simp⟩
    show (scan_devices_simple s (Except.error e :: rest)).2 = _
    unfold scan_devices_simple
    rw [if_pos hs]
    rfl
  | cons d more ih =>
    intro s hs
    have hstep : scan_devices_simple s ((d :: more).map Except.ok ++ Except.error e :: rest) =
        ((scan_devices_simple (processDevices s d).1
            (more.map Except.ok ++ Except.error e :: rest)).1,
          (processDevices s d).2 ++ (scan_devices_simple (processDevices s d).1
            (more.map Except.ok ++ Except.error e :: rest)).2) := by
      show (if s.scanning then _ else _) = _
      rw [if_pos hs]
      rfl
    have hs2 : (processDevices s d).1.scanning = true := by
      rw [processDevices_scanning]; exact hs
    obtain ⟨evs, hevs, hshape⟩ := ih (processDevices s d).1 hs2
    refine ⟨(processDevices s d).2 ++ evs, ?_, ?_⟩
    · rw [hstep]
      show (processDevices s d).2 ++ _ = _
      rw [hevs, List.append_assoc]
    · intro ev hev
      rcases List.mem_append.mp hev with h | h
      · exact processDevices_events d s ev h
      · exact hshape ev h

theorem cleanupDevice_scanning (s : BTState) (a : String)
    (co uo dc : String → Except String Unit) :
    (cleanupDevice s a co uo dc).1.scanning = s.scanning := by
  unfold cleanupDevice
  cases co a <;> cases uo a <;> cases dc a <;> rfl

theorem cleanupDevice_events (s : BTState) (a : String)
    (co uo dc : String → Except String Unit) :
    ∀ ev ∈ (cleanupDevice s a co uo dc).2.2.1, ∃ m, ev = Event.message m := by
  unfold cleanupDevice
  cases co a <;> cases uo a <;> cases dc a <;> intro ev hev <;> simp at hev <;> exact ⟨_, hev⟩

theorem cleanupSweep_scanning (l : List String) : ∀ (s : BTState)
    (co uo dc : String → Except String Unit),
    (cleanupSweep s l co uo dc).1.scanning = s.scanning := by
  induction l with
  | nil => intro s co uo dc; rfl
  | cons a rest ih =>
    intro s co uo dc
    show (cleanupSweep (cleanupDevice s a co uo dc).1 rest co uo dc).1.scanning = s.scanning
    rw [ih, cleanupDevice_scanning]

theorem cleanupSweep_events (l : List String) : ∀ (s : BTState)
    (co uo dc : String → Except String Unit),
    ∀ ev ∈ (cleanupSweep s l co uo dc).2.2.1, ∃ m, ev = Event.message m := by
  induction l with
  | nil => intro s co uo dc ev hev; simp [cleanupSweep] at hev
  | cons a rest ih =>
    intro s co uo dc ev hev
    have : (cleanupSweep s (a :: rest) co uo dc).2.2.1 =
        (cleanupDevice s a co uo dc).2.2.1 ++
          (cleanupSweep (cleanupDevice s a co uo dc).1 rest co uo dc).2.2.1 := rfl
    rw [this] at hev
    rcases List.mem_append.mp hev with h | h
    · exact cleanupDevice_events s a co uo dc ev h
    · exact ih _ co uo dc ev h

/-- The shape of a nonempty cleanup run: header, sweep events, summary. -/
theorem cleanup_all_nonempty (s : BTState) (co uo dc : String → Except String Unit)
    (h : ¬ s.pairedDevices = []) :
    cleanup_all_paired_devices s co uo dc =
      ((cleanupSweep s s.pairedDevices co uo dc).1,
        Event.message ("Unpairing " ++ toString s.pairedDevices.length ++ " device(s)...") ::
          (cleanupSweep s s.pairedDevices co uo dc).2.2.1 ++
          [if (cleanupSweep s s.pairedDevices co uo dc).2.1 = s.pairedDevices.length then
            Event.message "All devices unpaired successfully"
          else if 0 < (cleanupSweep s s.pairedDevices co uo dc).2.1 then
            Event.message ("Unpaired " ++ toString (cleanupSweep s s.pairedDevices co uo dc).2.1
              ++ "/" ++ toString s.pairedDevices.length ++ " devices")
          else Event.message "No devices could be unpaired"],
        (cleanupSweep s s.pairedDevices co uo dc).2.2.2) := by
  unfold cleanup_all_paired_devices
  rw [if_neg h]

theorem cleanup_all_events (s : BTState) (co uo dc : String → Except String Unit) :
    ∀ ev ∈ (cleanup_all_paired_devices s co uo dc).2.1, ∃ m, ev = Event.message m := by
  intro ev hev
  by_cases h : s.pairedDevices = []
  · unfold cleanup_all_paired_devices at hev
    rw [if_pos h] at hev
    simp at hev
    exact ⟨_, hev⟩
  · rw [cleanup_all_nonempty s co uo dc h] at hev
    rcases List.mem_cons.mp hev with hev | hev
    · exact ⟨_, hev⟩
    · rcases List.mem_append.mp hev with hev | hev
      · exact cleanupSweep_events _ _ _ _ _ ev hev
      · rw [List.mem_singleton] at hev
        rw [hev]
        split_ifs <;> exact ⟨_, rfl⟩

theorem cleanup_scanning_false (s' : BTState) (co uo dc : String → Except String Unit) :
    (cleanup s' co uo dc).1.scanning = false := by
  simp only [cleanup]
  split_ifs with h
  · rfl
  · rw [cleanup_all_nonempty _ co uo dc (by simpa using h)]
    show (cleanupSweep _ _ co uo dc).1.scanning = false
    rw [cleanupSweep_scanning]

theorem cleanup_no_scanStopped (s' : BTState) (co uo dc : String → Except String Unit) :
    Event.scanStopped ∉ (cleanup s' co uo dc).2.1 := by
  simp only [cleanup]
  split_ifs with h
  · simp
  · intro hmem
    obtain ⟨m, hm⟩ := cleanup_all_events _ co uo dc _ hmem
    exact absurd hm (by simp)

/-- C10: a discovery failure ends the scan loop with exactly one error
event and no scan-stopped event, leaving the scanning flag true;
`stop_scan` is the operation that clears the flag and emits the
scan-stopped event, while shutdown `cleanup` clears the flag without ever
emitting scan-stopped. -/
theorem C10_scan_error_keeps_flag (s : BTState)
    (good : List (List (String × Option String))) (e : String)
    (rest : List (Except String (List (String × Option String)))) (hs : s.scanning = true) :
    (scan_devices_simple s (good.map Except.ok ++ Except.error e :: rest)).1.scanning = true ∧
    (scan_devices_simple s (good.map Except.ok ++ Except.error e :: rest)).2.countP
      isErrorEvent = 1 ∧
    Event.scanStopped ∉ (scan_devices_simple s (good.map Except.ok ++ Except.error e :: rest)).2 ∧
    (∀ s', (stop_scan s').1.scanning = false ∧ (stop_scan s').2 = [Event.scanStopped]) ∧
    (∀ s' co uo dc, (cleanup s' co uo dc).1.scanning = false ∧
      Event.scanStopped ∉ (cleanup s' co uo dc).2.1) := by
  obtain ⟨evs, hevs, hshape⟩ := scan_error_event_shape e rest good s hs
  refine ⟨?_, ?_, ?_, ?_, ?_⟩
  · rw [scan_devices_simple_scanning]; exact hs
  · rw [hevs, List.countP_append]
    have h0 : evs.countP isErrorEvent = 0 := by
      rw [List.countP_eq_zero]
      intro ev hev
      obtain ⟨d, hd⟩ := hshape ev hev
      rw [hd]
      simp [isErrorEvent]
    rw [h0]
    simp [isErrorEvent]
  · rw [hevs]
    intro hmem
    rcases List.mem_append.mp hmem with h | h
    · obtain ⟨d, hd⟩ := hshape _ h
      exact absurd hd (by simp)
    · simp at h
  · intro s'
    exact ⟨rfl, rfl⟩
  · intro s' co uo dc
    exact ⟨cleanup_scanning_false s' co uo dc, cleanup_no_scanStopped s' co uo dc⟩

/-- A freshly scanning state. -/
def stScan : BTState := { stDisc with scanning := true }

/-- Witness for C10: one successful cycle discovering `devA`, then a
failing discovery. -/
theorem C10_witness :
    stScan.scanning = true ∧
    ((scan_devices_simple stScan ([[("AA:BB:CC:DD:EE:01", some "Alpha")]].map Except.ok ++
        Except.error "adapter off" :: [])).1.scanning = true ∧
      (scan_devices_simple stScan ([[("AA:BB:CC:DD:EE:01", some "Alpha")]].map Except.ok ++
        Except.error "adapter off" :: [])).2.countP isErrorEvent = 1 ∧
      Event.scanStopped ∉ (scan_devices_simple stScan
        ([[("AA:BB:CC:DD:EE:01", some "Alpha")]].map Except.ok ++
          Except.error "adapter off" :: [])).2 ∧
      (∀ s', (stop_scan s').1.scanning = false ∧ (stop_scan s').2 = [Event.scanStopped]) ∧
      (∀ s' co uo dc, (cleanup s' co uo dc).1.scanning = false ∧
        Event.scanStopped ∉ (cleanup s' co uo dc).2.1)) :=
  ⟨rfl, C10_scan_error_keeps_flag stScan [[("AA:BB:CC:DD:EE:01", some "Alpha")]] "adapter off"
    [] rfl⟩

/-! ## C5: partial-failure cleanup sweep -/

theorem unpaired_device_msg_ne (A : String) :
    "Unpaired device: " ++ A ≠ "Unpaired 1/2 devices" := by
  intro h
  have hd := congrArg String.data h
  rw [String.data_append] at hd
  have h1 : "Unpaired device: ".data =
      ['U', 'n', 'p', 'a', 'i', 'r', 'e', 'd', ' ', 'd', 'e', 'v', 'i', 'c', 'e', ':', ' '] :=
    rfl
  have h2 : "Unpaired 1/2 devices".data =
      ['U', 'n', 'p', 'a', 'i', 'r', 'e', 'd', ' ', '1', '/', '2', ' ', 'd', 'e', 'v', 'i',
        'c', 'e', 's'] := rfl
  rw [h1, h2] at hd
  have h9 := congrArg (fun l => l[9]?) hd
  simp at h9

theorem failed_unpair_msg_ne (B e : String) :
    "Failed to unpair " ++ B ++ ": " ++ e ≠ "Unpaired 1/2 devices" := by
  intro h
  have hd := congrArg String.data h
  rw [String.data_append, String.data_append, String.data_append] at hd
  have h1 : "Failed to unpair ".data =
      ['F', 'a', 'i', 'l', 'e', 'd', ' ', 't', 'o', ' ', 'u', 'n', 'p', 'a', 'i', 'r', ' '] :=
    rfl
  have h2 : "Unpaired 1/2 devices".data =
      ['U', 'n', 'p', 'a', 'i', 'r', 'e', 'd', ' ', '1', '/', '2', ' ', 'd', 'e', 'v', 'i',
        'c', 'e', 's'] := rfl
  rw [h1, h2] at hd
  have h0 := congrArg (fun l => l[0]?) hd
  simp at h0

/-- C5: with tracked set `[A, B]` where unpairing `A` fully succeeds and the
`unpair` call for `B` throws, `cleanupAll` reports the header, one
per-device success for `A`, one per-device failure for `B`, and exactly
one `1 of 2` partial summary, and retains exactly `B`; in general a fully
successful per-address iteration removes the address and reports a
per-device success, and a failing iteration leaves the tracked set
unchanged and reports a per-device failure. -/
theorem C5_cleanup_partial (A B e : String) (hAB : A ≠ B)
    (co uo dc : String → Except String Unit) (s : BTState)
    (hpd : s.pairedDevices = [A, B])
    (hcA : co A = Except.ok ()) (huA : uo A = Except.ok ()) (hdA : dc A = Except.ok ())
    (hcB : co B = Except.ok ()) (huB : uo B = Except.error e) :
    (cleanup_all_paired_devices s co uo dc).2.1 =
      [Event.message "Unpairing 2 device(s)...",
        Event.message ("Unpaired device: " ++ A),
        Event.message ("Failed to unpair " ++ B ++ ": " ++ e),
        Event.message "Unpaired 1/2 devices"] ∧
    (cleanup_all_paired_devices s co uo dc).1.pairedDevices = [B] ∧
    (cleanup_all_paired_devices s co uo dc).2.1.count
      (Event.message "Unpaired 1/2 devices") = 1 ∧
    (∀ (s' : BTState) (a : String) (co' uo' dc' : String → Except String Unit),
      (co' a = Except.ok () → uo' a = Except.ok () → dc' a = Except.ok () →
        a ∉ (cleanupDevice s' a co' uo' dc').1.pairedDevices ∧
        (cleanupDevice s' a co' uo' dc').1.pairedDevices = setRemove s'.pairedDevices a ∧
        (cleanupDevice s' a co' uo' dc').2.2.1 =
          [Event.message ("Unpaired device: " ++ a)]) ∧
      (∀ e', (co' a = Except.error e' ∨ (co' a = Except.ok () ∧ uo' a = Except.error e') ∨
          (co' a = Except.ok () ∧ uo' a = Except.ok () ∧ dc' a = Except.error e')) →
        (cleanupDevice s' a co' uo' dc').1.pairedDevices = s'.pairedDevices ∧
        (cleanupDevice s' a co' uo' dc').2.2.1 =
          [Event.message ("Failed to unpair " ++ a ++ ": " ++ e')])) := by
  have hBA : (B != A) = true := by
    rw [bne_iff_ne]
    exact fun hh => hAB hh.symm
  have hpdne : ¬ s.pairedDevices = [] := by rw [hpd]; simp
  have hrm : setRemove s.pairedDevices A = [B] := by
    rw [hpd]
    unfold setRemove
    simp [hBA]
  have hd1 : cleanupDevice s A co uo dc =
      ({ s with nextHandle := s.nextHandle + 1, pairedDevices := [B] }, 1,
        [Event.message ("Unpaired device: " ++ A)],
        [TCall.connect s.nextHandle, TCall.unpair s.nextHandle,
          TCall.disconnect s.nextHandle]) := by
    simp [cleanupDevice, hcA, huA, hdA, hrm]
  have hd2 : ∀ (u : BTState), cleanupDevice u B co uo dc =
      ({ u with nextHandle := u.nextHandle + 1 }, 0,
        [Event.message ("Failed to unpair " ++ B ++ ": " ++ e)],
        [TCall.connect u.nextHandle, TCall.unpair u.nextHandle]) := by
    intro u
    unfold cleanupDevice
    rw [hcB, huB]
  have hsweep_cons : ∀ (u : BTState) (a : String) (l : List String),
      cleanupSweep u (a :: l) co uo dc =
        ((cleanupSweep (cleanupDevice u a co uo dc).1 l co uo dc).1,
          (cleanupDevice u a co uo dc).2.1 +
            (cleanupSweep (cleanupDevice u a co uo dc).1 l co uo dc).2.1,
          (cleanupDevice u a co uo dc).2.2.1 ++
            (cleanupSweep (cleanupDevice u a co uo dc).1 l co uo dc).2.2.1,
          (cleanupDevice u a co uo dc).2.2.2 ++
            (cleanupSweep (cleanupDevice u a co uo dc).1 l co uo dc).2.2.2) :=
    fun _ _ _ => rfl
  have hsweep_nil : ∀ (u : BTState), cleanupSweep u [] co uo dc = (u, 0, [], []) :=
    fun _ => rfl
  have hsweep : cleanupSweep s s.pairedDevices co uo dc =
      ({ s with nextHandle := s.nextHandle + 1 + 1, pairedDevices := [B] }, 1,
        [Event.message ("Unpaired device: " ++ A),
          Event.message ("Failed to unpair " ++ B ++ ": " ++ e)],
        [TCall.connect s.nextHandle, TCall.unpair s.nextHandle,
          TCall.disconnect s.nextHandle, TCall.connect (s.nextHandle + 1),
          TCall.unpair (s.nextHandle + 1)]) := by
    rw [hpd, hsweep_cons, hd1, hsweep_cons, hd2, hsweep_nil]
    rfl
  have hall : cleanup_all_paired_devices s co uo dc =
      ({ s with nextHandle := s.nextHandle + 1 + 1, pairedDevices := [B] },
        [Event.message "Unpairing 2 device(s)...",
          Event.message ("Unpaired device: " ++ A),
          Event.message ("Failed to unpair " ++ B ++ ": " ++ e),
          Event.message "Unpaired 1/2 devices"],
        [TCall.connect s.nextHandle, TCall.unpair s.nextHandle,
          TCall.disconnect s.nextHandle, TCall.connect (s.nextHandle + 1),
          TCall.unpair (s.nextHandle + 1)]) := by
    rw [cleanup_all_nonempty s co uo dc hpdne, hsweep, hpd]
    simp only [List.length_cons, List.length_nil]
    norm_num
    exact ⟨rfl, rfl⟩
  refine ⟨by rw [hall], by rw [hall], ?_, ?_⟩
  · rw [hall]
    have hne1 : (Event.message "Unpairing 2 device(s)..." ==
        Event.message "Unpaired 1/2 devices") = false := by decide
    have hne2 : (Event.message ("Unpaired device: " ++ A) ==
        Event.message "Unpaired 1/2 devices") = false := by
      rw [beq_eq_false_iff_ne]
      intro hh
      exact unpaired_device_msg_ne A (Event.message.inj hh)
    have hne3 : (Event.message ("Failed to unpair " ++ B ++ ": " ++ e) ==
        Event.message "Unpaired 1/2 devices") = false := by
      rw [beq_eq_false_iff_ne]
      intro hh
      exact failed_unpair_msg_ne B e (Event.message.inj hh)
    show List.count _ _ = 1
    simp [List.count_cons, hne1, hne2, hne3]
  · intro s' a co' uo' dc'
    constructor
    · intro hco hup hdc
      have hstate : cleanupDevice s' a co' uo' dc' =
          ({ s' with nextHandle := s'.nextHandle + 1, pairedDevices := setRemove s'.pairedDevices a }, 1,
            [Event.message ("Unpaired device: " ++ a)],
            [TCall.connect s'.nextHandle, TCall.unpair s'.nextHandle,
              TCall.disconnect s'.nextHandle]) := by
        simp [cleanupDevice, hco, hup, hdc]
      rw [hstate]
      exact ⟨not_mem_setRemove_self _ _, rfl, rfl⟩
    · intro e' hfail
      rcases hfail with hf | ⟨hf1, hf2⟩ | ⟨hf1, hf2, hf3⟩
      · unfold cleanupDevice
        rw [hf]
        exact ⟨rfl, rfl⟩
      · unfold cleanupDevice
        rw [hf1, hf2]
        exact ⟨rfl, rfl⟩
      · unfold cleanupDevice
        rw [hf1, hf2, hf3]
        exact ⟨rfl, rfl⟩

/-- Cleanup oracle for the C5 witness: every transient connect and
disconnect succeeds. -/
def okW : String → Except String Unit := fun _ => Except.ok ()

/-- Cleanup unpair oracle for the C5 witness: unpairing the second
address throws. -/
def uoW : String → Except String Unit :=
  fun x => if x = "AA:BB:CC:DD:EE:02" then Except.error "busy" else Except.ok ()

/-- A state tracking exactly the two witness addresses. -/
def stPaired2 : BTState :=
  { stDisc with pairedDevices := ["AA:BB:CC:DD:EE:01", "AA:BB:CC:DD:EE:02"] }

/-- Witness for C5 with two concrete tracked addresses where unpairing
the second one throws. -/
theorem C5_witness :
    ("AA:BB:CC:DD:EE:01" : String) ≠ "AA:BB:CC:DD:EE:02" ∧
    stPaired2.pairedDevices = ["AA:BB:CC:DD:EE:01", "AA:BB:CC:DD:EE:02"] ∧
    okW "AA:BB:CC:DD:EE:01" = Except.ok () ∧
    uoW "AA:BB:CC:DD:EE:01" = Except.ok () ∧
    okW "AA:BB:CC:DD:EE:02" = Except.ok () ∧
    uoW "AA:BB:CC:DD:EE:02" = Except.error "busy" ∧
    ((cleanup_all_paired_devices stPaired2 okW uoW okW).2.1 =
      [Event.message "Unpairing 2 device(s)...",
        Event.message ("Unpaired device: " ++ "AA:BB:CC:DD:EE:01"),
        Event.message ("Failed to unpair " ++ "AA:BB:CC:DD:EE:02" ++ ": " ++ "busy"),
        Event.message "Unpaired 1/2 devices"] ∧
    (cleanup_all_paired_devices stPaired2 okW uoW okW).1.pairedDevices =
      ["AA:BB:CC:DD:EE:02"] ∧
    (cleanup_all_paired_devices stPaired2 okW uoW okW).2.1.count
      (Event.message "Unpaired 1/2 devices") = 1 ∧
    (∀ (s' : BTState) (a : String) (co' uo' dc' : String → Except String Unit),
      (co' a = Except.ok () → uo' a = Except.ok () → dc' a = Except.ok () →
        a ∉ (cleanupDevice s' a co' uo' dc').1.pairedDevices ∧
        (cleanupDevice s' a co' uo' dc').1.pairedDevices = setRemove s'.pairedDevices a ∧
        (cleanupDevice s' a co' uo' dc').2.2.1 =
          [Event.message ("Unpaired device: " ++ a)]) ∧
      (∀ e', (co' a = Except.error e' ∨ (co' a = Except.ok () ∧ uo' a = Except.error e') ∨
          (co' a = Except.ok () ∧ uo' a = Except.ok () ∧ dc' a = Except.error e')) →
        (cleanupDevice s' a co' uo' dc').1.pairedDevices = s'.pairedDevices ∧
        (cleanupDevice s' a co' uo' dc').2.2.1 =
          [Event.message ("Failed to unpair " ++ a ++ ": " ++ e')]))) :=
  ⟨by decide, rfl, rfl, rfl, rfl, rfl,
    C5_cleanup_partial "AA:BB:CC:DD:EE:01" "AA:BB:CC:DD:EE:02" "busy" (by decide)
      okW uoW okW stPaired2 rfl rfl rfl rfl rfl rfl⟩

/-! ## C2: subscribe failure falls back to polling -/

theorem polled_suffix_ne (ts : String) (suf : String) :
    "[" ++ ts ++ "] " ++ "Polled" ++ suf ≠ pollingStartedMsg ts := by
  intro h
  have hd := congrArg String.data h
  simp only [pollingStartedMsg, String.data_append, List.append_assoc] at hd
  simp only [List.cons_append, List.nil_append] at hd
  rw [List.cons.injEq] at hd
  obtain ⟨-, hd⟩ := hd
  have h2 := List.append_cancel_left hd
  simp at h2

/-- A polled data line can never collide with the synthetic
polling-started status line. -/
theorem format_Polled_ne (ts : String) (d : List Nat) :
    format_data_message ts d "Polled" ≠ pollingStartedMsg ts := by
  unfold format_data_message
  rcases hdec : utf8Decode? d with _ | cps
  · show "[" ++ ts ++ "] " ++ "Polled" ++ " (hex): " ++ hexJoin d ++ "\n" ≠ pollingStartedMsg ts
    rw [String.append_assoc ("[" ++ ts ++ "] " ++ "Polled") " (hex): " (hexJoin d),
      String.append_assoc ("[" ++ ts ++ "] " ++ "Polled") (" (hex): " ++ hexJoin d) "\n"]
    exact polled_suffix_ne ts _
  · show "[" ++ ts ++ "] " ++ "Polled" ++ ": \x27" ++ codepointsStr cps ++ "\x27\n" ≠
      pollingStartedMsg ts
    rw [String.append_assoc ("[" ++ ts ++ "] " ++ "Polled") ": \x27" (codepointsStr cps),
      String.append_assoc ("[" ++ ts ++ "] " ++ "Polled") (": \x27" ++ codepointsStr cps)
        "\x27\n"]
    exact polled_suffix_ne ts _

theorem pollEvents_modes (ts : String) (polls : List (Except String (List Nat))) :
    (polls.filterMap (pollRender ts)).filterMap eventMode = [] := by
  induction polls with
  | nil => rfl
  | cons r rest ih => cases r <;> simp [pollRender, List.filterMap_cons, eventMode, ih]

theorem pollEvents_no_error (ts : String) (polls : List (Except String (List Nat))) :
    (polls.filterMap (pollRender ts)).countP isErrorEvent = 0 := by
  induction polls with
  | nil => rfl
  | cons r rest ih =>
    cases r <;> simp [pollRender, List.filterMap_cons, List.countP_cons, isErrorEvent, ih]

theorem pollEvents_no_pollingStarted (ts : String) (polls : List (Except String (List Nat))) :
    (polls.filterMap (pollRender ts)).count (Event.dataReceived (pollingStartedMsg ts)) = 0 := by
  induction polls with
  | nil => rfl
  | cons r rest ih =>
    cases r with
    | error e => simpa [pollRender, List.filterMap_cons] using ih
    | ok d =>
      have hne : (Event.dataReceived (format_data_message ts d "Polled") ==
          Event.dataReceived (pollingStartedMsg ts)) = false := by
        rw [beq_eq_false_iff_ne]
        intro hh
        exact format_Polled_ne ts d (Event.dataReceived.inj hh)
      simp [pollRender, List.filterMap_cons, List.count_cons, hne, ih]

/-- C2: on a connected session with a selected characteristic, a failing
transport subscribe drives the engine through exactly
`Idle → Subscribing → Polling`, never `RealNotify`; the failure is
reported only as an informational message (no error event), and exactly
one synthetic polling-started status line is delivered as received data. -/
theorem C2_subscribe_failure_fallback (s : BTState) (c : CharRef) (cl : Client)
    (ts e : String) (incoming : List (List Nat)) (polls : List (Except String (List Nat)))
    (hc : s.client = some cl) (hconn : s.connected = true) :
    modeTrace (start_notifications s (some c) ts (Except.error e) incoming polls).2.1 =
      [EngineMode.Idle, EngineMode.Subscribing, EngineMode.Polling] ∧
    EngineMode.RealNotify ∉
      modeTrace (start_notifications s (some c) ts (Except.error e) incoming polls).2.1 ∧
    (start_notifications s (some c) ts (Except.error e) incoming polls).2.1.countP
      isErrorEvent = 0 ∧
    Event.message ("Notifications failed, falling back to polling: " ++ e) ∈
      (start_notifications s (some c) ts (Except.error e) incoming polls).2.1 ∧
    (start_notifications s (some c) ts (Except.error e) incoming polls).2.1.count
      (Event.dataReceived (pollingStartedMsg ts)) = 1 := by
  have hev : (start_notifications s (some c) ts (Except.error e) incoming polls).2.1 =
      Event.notificationsStarting ::
        Event.message ("Notifications failed, falling back to polling: " ++ e) ::
        Event.notificationsStartedPolling :: Event.dataReceived (pollingStartedMsg ts) ::
        polls.filterMap (pollRender ts) := by
    simp [start_notifications, start_polling_fallback, hc, hconn]
  have h1 : modeTrace (start_notifications s (some c) ts (Except.error e) incoming polls).2.1 =
      [EngineMode.Idle, EngineMode.Subscribing, EngineMode.Polling] := by
    rw [hev]
    unfold modeTrace
    simp [List.filterMap_cons, eventMode, pollEvents_modes]
  refine ⟨h1, ?_, ?_, ?_, ?_⟩
  · rw [h1]
    decide
  · rw [hev]
    simp [List.countP_cons, isErrorEvent, pollEvents_no_error]
  · rw [hev]
    simp
  · rw [hev]
    rw [List.count_cons, List.count_cons, List.count_cons, List.count_cons]
    rw [pollEvents_no_pollingStarted]
    simp

/-- A notify-capable characteristic used by witnesses. -/
def chN : CharRef := { uuid := "ffe2", properties := ["notify"] }

/-- Witness for C2 at a concrete connected state with a concrete failing
subscribe and one later successful poll read. -/
theorem C2_witness :
    stConn.client = some { id := 0, address := "AA:BB:CC:DD:EE:01" } ∧
    stConn.connected = true ∧
    (modeTrace (start_notifications stConn (some chN) "12:00:00" (Except.error "unsupported")
        [] [Except.ok [72]]).2.1 =
      [EngineMode.Idle, EngineMode.Subscribing, EngineMode.Polling] ∧
    EngineMode.RealNotify ∉
      modeTrace (start_notifications stConn (some chN) "12:00:00" (Except.error "unsupported")
        [] [Except.ok [72]]).2.1 ∧
    (start_notifications stConn (some chN) "12:00:00" (Except.error "unsupported")
        [] [Except.ok [72]]).2.1.countP isErrorEvent = 0 ∧
    Event.message ("Notifications failed, falling back to polling: " ++ "unsupported") ∈
      (start_notifications stConn (some chN) "12:00:00" (Except.error "unsupported")
        [] [Except.ok [72]]).2.1 ∧
    (start_notifications stConn (some chN) "12:00:00" (Except.error "unsupported")
        [] [Except.ok [72]]).2.1.count
      (Event.dataReceived (pollingStartedMsg "12:00:00")) = 1) :=
  ⟨rfl, rfl, C2_subscribe_failure_fallback stConn chN { id := 0, address := "AA:BB:CC:DD:EE:01" }
    "12:00:00" "unsupported" [] [Except.ok [72]] rfl rfl⟩

/-! ## C8: data-line formatting -/

theorem hexDigit_is_hex (n : Nat) (h : n < 16) :
    (('0' : Char) ≤ hexDigit n ∧ hexDigit n ≤ '9') ∨
      (('a' : Char) ≤ hexDigit n ∧ hexDigit n ≤ 'f') := by
  interval_cases n <;> decide

/-- C8: a payload that decodes as UTF-8 is rendered as
`[HH:MM:SS] <Kind>: '<text>'` plus newline, where the text is the true
UTF-8 decoding (its encoding is the input); any other payload is rendered
as `[HH:MM:SS] <Kind> (hex): ` plus the lowercase two-digit hex bytes
joined by single spaces and a newline, as the concrete example
`[0xff, 0xfe, 0x01] ↦ "ff fe 01"` shows. -/
theorem C8_format_data_message (ts kind : String) (data : List Nat) :
    (∀ cps, utf8Decode? data = some cps →
      format_data_message ts data kind =
        "[" ++ ts ++ "] " ++ kind ++ ": \x27" ++ codepointsStr cps ++ "\x27\n" ∧
      utf8Encode cps = data) ∧
    (utf8Decode? data = none →
      format_data_message ts data kind =
        "[" ++ ts ++ "] " ++ kind ++ " (hex): " ++ hexJoin data ++ "\n") ∧
    (∀ b, b < 256 → (hexByte b).data.length = 2 ∧
      ∀ ch ∈ (hexByte b).data,
        (('0' : Char) ≤ ch ∧ ch ≤ '9') ∨ (('a' : Char) ≤ ch ∧ ch ≤ 'f')) ∧
    format_data_message ts [0xff, 0xfe, 0x01] "Read" =
      "[" ++ ts ++ "] Read (hex): ff fe 01\n" := by
  refine ⟨?_, ?_, ?_, ?_⟩
  · intro cps hdec
    constructor
    · unfold format_data_message
      rw [hdec]
    · exact (utf8Encode_decode data cps hdec).1
  · intro hdec
    unfold format_data_message
    rw [hdec]
  · intro b hb
    refine ⟨rfl, ?_⟩
    intro ch hch
    have hdata : (hexByte b).data = [hexDigit (b / 16), hexDigit (b % 16)] := rfl
    rw [hdata] at hch
    rcases List.mem_cons.mp hch with h | h
    · rw [h]
      exact hexDigit_is_hex _ (by omega)
    · rw [List.mem_singleton] at h
      rw [h]
      exact hexDigit_is_hex _ (by omega)
  · have hdec : utf8Decode? [0xff, 0xfe, 0x01] = none := by decide
    unfold format_data_message
    rw [hdec]
    apply String.ext
    simp only [String.data_append]
    simp
    decide

/-- Witness for C8: the UTF-8 payload `"Hi"` and the binary payload
`[0xff, 0xfe, 0x01]` at a concrete timestamp. -/
theorem C8_witness :
    utf8Decode? [72, 105] = some [72, 105] ∧
    (format_data_message "12:00:00" [72, 105] "Read" = "[12:00:00] Read: \x27Hi\x27\n" ∧
      utf8Encode [72, 105] = [72, 105]) ∧
    utf8Decode? [0xff, 0xfe, 0x01] = none ∧
    format_data_message "12:00:00" [0xff, 0xfe, 0x01] "Read" =
      "[12:00:00] Read (hex): ff fe 01\n" := by
  have h1 := (C8_format_data_message "12:00:00" "Read" [72, 105]).1 [72, 105] (by decide)
  have h2 := (C8_format_data_message "12:00:00" "Read" [0xff, 0xfe, 0x01]).2.1 (by decide)
  exact ⟨by decide, ⟨h1.1.trans (by decide), h1.2⟩, by decide, h2.trans (by decide)⟩
